import Mathlib

/-!
Verification development for the cloudflare_dyndns repository.

The Go sources are shallowly embedded as Lean functions:

* `IsIPv4` / `IsIPv6` model the address validators in
  `internal/ipdetector.go` (`IsIPv4`, `IsIPv6`) and the identical legacy
  pair `isIPv4`/`isIPv6` in `internal/updater.go`.  `IsIPv6` calls Go's
  `net.ParseIP`, which is modelled here (`goParseIP`) down to the byte
  level following Go's `net/netip` parser.
* The IP detector (`internal/ipdetector.go`) and both the refactored
  updater (`updater.go`, given as an unnamed source file: `Run`,
  `detectIPs`, `getCurrentRecord`, `needsUpdate`, `updateRecords`,
  `updateRecord`) and the legacy single-file updater
  (`internal/updater.go`: `Run`) are embedded as state-passing functions
  over an explicit collaborator oracle (`World`), producing a trace of
  external calls (`CallEvent`) so that frame conditions ("no mutating
  call is issued") can be stated.
-/

/-- Character is one of the ASCII whitespace characters trimmed by Go's
`strings.TrimSpace` (Go also trims non-ASCII Unicode spaces; the
detector bodies compared here are ASCII, so the ASCII set is the
relevant fragment). -/
def goIsSpace (c : Char) : Bool :=
  c = ' ' || c = '\t' || c = '\n' || c = '\x0b' || c = '\x0c' || c = '\r'

/-- Models Go `strings.TrimSpace`: drop leading and trailing whitespace. -/
def goTrimSpace (s : String) : String :=
  ⟨((s.data.dropWhile goIsSpace).reverse.dropWhile goIsSpace).reverse⟩

/-- Split a character list on a separator character; `n` separators yield
`n+1` groups (groups may be empty), exactly like Go's `strings.Split`. -/
def splitOnChar (sep : Char) : List Char → List (List Char)
  | [] => [[]]
  | c :: cs =>
    let r := splitOnChar sep cs
    if c = sep then
      [] :: r
    else
      match r with
      | [] => [[c]]
      | g :: gs => (c :: g) :: gs

/-- Numeric value of a decimal digit character. -/
def digitVal (c : Char) : Nat := c.toNat - '0'.toNat

/-- Decimal value of a digit string (most significant digit first). -/
def digitsVal (l : List Char) : Nat := l.foldl (fun a c => a * 10 + digitVal c) 0

/-- Language of one octet of the regex in `ipdetector.go` `IsIPv4`
(`25[0-5]|(2[0-4]|1{0,1}[0-9]){0,1}[0-9]`): a single digit, any two
digits, or `25[0-5]` / `2[0-4][0-9]` / `1[0-9][0-9]`. -/
def isOctetRe (l : List Char) : Bool :=
  match l with
  | [a] => a.isDigit
  | [a, b] => a.isDigit && b.isDigit
  | [a, b, c] =>
    (a = '2' && b = '5' && '0' ≤ c && c ≤ '5') ||
    (a = '2' && '0' ≤ b && b ≤ '4' && c.isDigit) ||
    (a = '1' && b.isDigit && c.isDigit)
  | _ => false

/-- Models `IsIPv4` from `internal/ipdetector.go` (and the identical
`isIPv4` in `internal/updater.go`): the string matches the anchored
regex `^((25[0-5]|(2[0-4]|1{0,1}[0-9]){0,1}[0-9])\.){3,3}(25[0-5]|(2[0-4]|1{0,1}[0-9]){0,1}[0-9])$`,
i.e. four octets of the language above separated by dots. -/
def IsIPv4 (s : String) : Bool :=
  match splitOnChar '.' s.data with
  | [a, b, c, d] => isOctetRe a && isOctetRe b && isOctetRe c && isOctetRe d
  | _ => false

/-- One field of Go `net/netip`'s IPv4 parser: nonempty, all decimal
digits, no leading zero (a multi-digit field may not start with `0`),
value at most 255. -/
def goV4Field (f : List Char) : Option Nat :=
  if f ≠ [] ∧ f.all Char.isDigit ∧ (1 < f.length → f.head? ≠ some '0') ∧ digitsVal f ≤ 255 then
    some (digitsVal f)
  else
    none

/-- Models the IPv4 path of Go `net.ParseIP` (`net/netip.parseIPv4`):
exactly four dot-separated decimal fields, each 1-3 digits without
leading zeros and with value at most 255. -/
def goParseV4 (s : List Char) : Option (Nat × Nat × Nat × Nat) :=
  match (splitOnChar '.' s).map goV4Field with
  | [some a, some b, some c, some d] => some (a, b, c, d)
  | _ => none

/-- Value of a hexadecimal digit character, if it is one. -/
def hexVal (c : Char) : Option Nat :=
  if c.isDigit then some (c.toNat - '0'.toNat)
  else if 'a' ≤ c ∧ c ≤ 'f' then some (c.toNat - 'a'.toNat + 10)
  else if 'A' ≤ c ∧ c ≤ 'F' then some (c.toNat - 'A'.toNat + 10)
  else none

/-- Greedily consume hexadecimal digits, as the inlined hex loop of Go
`net/netip.parseIPv6` does.  Returns `(value, digitCount, rest)`; `none`
signals the parser's "IPv6 field has value >= 2^16" error. -/
def grabHex (acc : Nat) : List Char → Option (Nat × Nat × List Char)
  | [] => some (acc, 0, [])
  | c :: cs =>
    match hexVal c with
    | none => some (acc, 0, c :: cs)
    | some v =>
      let acc' := acc * 16 + v
      if 65535 < acc' then
        none
      else
        match grabHex acc' cs with
        | none => none
        | some (a, n, rest) => some (a, n + 1, rest)

/-- Main loop of Go `net/netip.parseIPv6`.  `i` counts bytes already
produced, `ip` holds them, `ell` is the position of a `::` if one was
seen, `s` is the remaining input.  Returns the produced bytes, the
ellipsis position and the unconsumed input at loop exit; `none` is a
parse error.  The loop body runs at most 8 times (each iteration adds at
least two bytes), so `fuel = 16` never runs out. -/
def v6Loop (fuel : Nat) (i : Nat) (ip : List Nat) (ell : Option Nat) (s : List Char) :
    Option (List Nat × Option Nat × List Char) :=
  match fuel with
  | 0 => none
  | fuel + 1 =>
    if 16 ≤ i then
      some (ip, ell, s)
    else
      match grabHex 0 s with
      | none => none
      | some (acc, off, rest) =>
        if off = 0 then
          none
        else
          match rest with
          | '.' :: _ =>
            if ell = none ∧ i ≠ 12 then none
            else if 16 < i + 4 then none
            else
              match goParseV4 s with
              | none => none
              | some (a, b, c, d) => some (ip ++ [a, b, c, d], ell, [])
          | _ =>
            let ip' := ip ++ [acc / 256, acc % 256]
            let i' := i + 2
            match rest with
            | [] => some (ip', ell, [])
            | c :: s2 =>
              if c ≠ ':' then none
              else
                match s2 with
                | [] => none
                | c2 :: s3 =>
                  if c2 = ':' then
                    if ell.isSome then none
                    else
                      match s3 with
                      | [] => some (ip', some i', [])
                      | _ => v6Loop fuel i' ip' (some i') s3
                  else v6Loop fuel i' ip' ell (c2 :: s3)

/-- Models the IPv6 path of Go `net.ParseIP` (`net/netip.parseIPv6`
followed by `net`'s rejection of zoned addresses): returns the 16
address bytes.  A `%` always yields `none`, because `netip` either
rejects it or produces a nonempty zone, which `net.ParseIP` rejects. -/
def goParseV6 (s : List Char) : Option (List Nat) :=
  if s.contains '%' then
    none
  else
    match s with
    | ':' :: ':' :: rest =>
      if rest = [] then
        some (List.replicate 16 0)
      else
        goParseV6Tail (some 0) rest
    | _ => goParseV6Tail none s
where
  /-- Run the main loop and apply the post-loop checks and `::` expansion. -/
  goParseV6Tail (ell0 : Option Nat) (s0 : List Char) : Option (List Nat) :=
    match v6Loop 16 0 [] ell0 s0 with
    | none => none
    | some (ip, ell, rest) =>
      if rest ≠ [] then
        none
      else if ip.length < 16 then
        match ell with
        | none => none
        | some e => some (ip.take e ++ List.replicate (16 - ip.length) 0 ++ ip.drop e)
      else if ell.isSome then
        none
      else
        some ip

/-- A parsed Go IP address: either the 4-byte form produced by the IPv4
parser or the 16-byte form produced by the IPv6 parser. -/
inductive GoIP
  | v4 (a b c d : Nat)
  | v6 (bytes : List Nat)
deriving DecidableEq, Repr

/-- The dispatch loop of Go `net.ParseIP` / `net/netip.ParseAddr`: the
first occurrence of `.`, `:` or `%` selects the parser (`%` is an
immediate error). -/
def goSpecialChar (c : Char) : Bool := c = '.' || c = ':' || c = '%'

/-- Models Go `net.ParseIP`. -/
def goParseIP (str : String) : Option GoIP :=
  match str.data.find? goSpecialChar with
  | none => none
  | some c =>
    if c = '.' then
      (goParseV4 str.data).map (fun t => GoIP.v4 t.1 t.2.1 t.2.2.1 t.2.2.2)
    else if c = ':' then
      (goParseV6 str.data).map GoIP.v6
    else
      none

/-- Models `ip.To4() != nil` on the result of `net.ParseIP`: true for a
4-byte address and for a 16-byte address with the IPv4-mapped prefix
`::ffff:0:0/96`. -/
def goTo4Some : GoIP → Bool
  | .v4 _ _ _ _ => true
  | .v6 bs => ((bs.take 10).all (· = 0)) && bs.get? 10 = some 255 && bs.get? 11 = some 255

/-- Models `IsIPv6` from `internal/ipdetector.go` (and the identical
`isIPv6` in `internal/updater.go`): `net.ParseIP` succeeds and `To4()`
is nil. -/
def IsIPv6 (s : String) : Bool :=
  match goParseIP s with
  | some ip => !goTo4Some ip
  | none => false

/-! ## Data model and collaborator oracle -/

/-- Models the `DNSRecord` struct shared by both updater versions. -/
structure DNSRecord where
  id : String
  rtype : String
  name : String
  content : String
  proxied : Bool
deriving DecidableEq, Repr

/-- Models `DNSRecordInfo` from the refactored updater. -/
structure DNSRecordInfo where
  ID : String
  Content : String
  Proxied : Bool
deriving DecidableEq, Repr

/-- Models the configuration fields of the `DNSUpdater` struct (both
versions have the same fields; the collaborator handles `cfClient` /
`ipDetector` / `client` are replaced by the explicit `World` oracle). -/
structure DNSUpdater where
  ZoneID : String
  APIToken : String
  Hostname : String
  IPAddr : String
  EnableIPv6 : Bool
deriving DecidableEq, Repr

/-- One outbound call made during a run, recorded in the trace. -/
inductive CallEvent
  | httpGet (url : String)
  | listRecords (rtype hostname : String)
  | createRecord (rtype hostname content : String) (proxied : Bool)
  | updateRecord (id rtype hostname content : String) (proxied : Bool)
deriving DecidableEq, Repr

/-- True for provider (Cloudflare) calls, false for detection lookups. -/
def CallEvent.isProviderCall : CallEvent → Bool
  | .httpGet _ => false
  | _ => true

/-- True for the mutating provider calls (create or update). -/
def CallEvent.isMutation : CallEvent → Bool
  | .createRecord _ _ _ _ => true
  | .updateRecord _ _ _ _ _ => true
  | _ => false

/-- True for detection lookups. -/
def CallEvent.isHttpGet : CallEvent → Bool
  | .httpGet _ => true
  | _ => false

/-- The external collaborators of one run, as response oracles:
`httpGet url` is the body an address-detection endpoint returns (`none`
is a request/read failure), `ifaceV6` is the result of
`detectIPv6FromInterfaces` (local platform state, outside the embedded
code), and the three provider operations answer the Cloudflare client's
list/create/update calls (`Except.error` is a transport/parse/API
failure, `Except.ok b` is the API's `success` flag `b`). -/
structure World where
  httpGet : String → Option String
  ifaceV6 : Option String
  listRecords : String → String → Except String (List DNSRecord)
  createRecord : String → String → String → Bool → Except String Bool
  updateRecord : String → String → String → String → Bool → Except String Bool

/-! ## Status constants (refactored updater) -/

/-- `StatusNoChange` from the refactored updater. -/
def StatusNoChange : String := "no changes needed"

/-- `StatusGood` from the refactored updater. -/
def StatusGood : String := "update successful"

/-- `StatusAuthError` from the refactored updater. -/
def StatusAuthError : String := "authentication error"

/-- `RecordTypeA` from the refactored updater. -/
def RecordTypeA : String := "A"

/-- `RecordTypeAAAA` from the refactored updater. -/
def RecordTypeAAAA : String := "AAAA"

/-! ## IP detector (`internal/ipdetector.go`) -/

/-- The `ipv4Services` list in `IPDetector.DetectIPv4`. -/
def ipv4Services : List String :=
  ["https://api.ipify.org", "https://v4.ident.me/", "https://ipv4.icanhazip.com/"]

/-- The `ipv6Services` list in `IPDetector.DetectIPv6` (the legacy
`detectIPv6` in `internal/updater.go` uses the same list). -/
def ipv6Services : List String :=
  ["https://api6.ipify.org", "https://v6.ident.me/", "https://ipv6.icanhazip.com/"]

/-- The shared endpoint loop of `DetectIPv4` / `DetectIPv6` (and of the
legacy `detectIPv6`): try each service in order; on a request/read
failure or a body whose trimmed text fails validation, fall through to
the next service; on the first valid trimmed body, return it without
consulting later services.  Also returns the consulted endpoints. -/
def detectFromServices (w : World) (valid : String → Bool) :
    List String → List CallEvent × Option String
  | [] => ([], none)
  | svc :: rest =>
    match w.httpGet svc with
    | some body =>
      let ipStr := goTrimSpace body
      if valid ipStr then
        ([CallEvent.httpGet svc], some ipStr)
      else
        let (evs, r) := detectFromServices w valid rest
        (CallEvent.httpGet svc :: evs, r)
    | none =>
      let (evs, r) := detectFromServices w valid rest
      (CallEvent.httpGet svc :: evs, r)

/-- Models `IPDetector.DetectIPv4` from `internal/ipdetector.go`. -/
def IPDetector.DetectIPv4 (w : World) : List CallEvent × Except String String :=
  match detectFromServices w IsIPv4 ipv4Services with
  | (evs, some ip) => (evs, .ok ip)
  | (evs, none) => (evs, .error "failed to detect public IPv4 address")

/-- Models `IPDetector.DetectIPv6` from `internal/ipdetector.go`:
external services first, then the local-interface fallback
(`detectIPv6FromInterfaces`, whose result is the oracle `w.ifaceV6`). -/
def IPDetector.DetectIPv6 (w : World) : List CallEvent × Except String String :=
  match detectFromServices w IsIPv6 ipv6Services with
  | (evs, some ip) => (evs, .ok ip)
  | (evs, none) =>
    match w.ifaceV6 with
    | some ip => (evs, .ok ip)
    | none => (evs, .error "no IPv6 address found from external services or local interfaces")

/-! ## Refactored updater (unnamed source file: `Run` and helpers) -/

/-- Models `detectIPs` of the refactored updater: resolve or classify the
addresses, forcing `EnableIPv6` off on an explicit IPv6 input or on an
IPv6 detection failure.  Returns the (possibly mutated) updater, the
detection-call trace, and `(ipv4, ipv6)` or the fatal error. -/
def DNSUpdater.detectIPs (u : DNSUpdater) (w : World) :
    DNSUpdater × List CallEvent × Except String (String × String) :=
  let step1 : DNSUpdater × List CallEvent × Except String (String × String) :=
    if u.IPAddr = "" then
      match IPDetector.DetectIPv4 w with
      | (evs, .ok ip) => (u, evs, .ok (ip, ""))
      | (evs, .error e) => (u, evs, .error ("detect IPv4: " ++ e))
    else if IsIPv4 u.IPAddr then
      (u, [], .ok (u.IPAddr, ""))
    else if IsIPv6 u.IPAddr then
      ({ u with EnableIPv6 := false }, [], .ok ("", u.IPAddr))
    else
      (u, [], .error "invalid IP address provided")
  match step1 with
  | (u1, evs1, .error e) => (u1, evs1, .error e)
  | (u1, evs1, .ok (ipv4, ipv6)) =>
    if u1.EnableIPv6 && ipv6 == "" then
      match IPDetector.DetectIPv6 w with
      | (evs2, .ok ip6) => (u1, evs1 ++ evs2, .ok (ipv4, ip6))
      | (evs2, .error _) => ({ u1 with EnableIPv6 := false }, evs1 ++ evs2, .ok (ipv4, ""))
    else
      (u1, evs1, .ok (ipv4, ipv6))

/-- Models `getCurrentRecord` of the refactored updater: list the records
of the given type and keep only the first, or `none` when there is none. -/
def DNSUpdater.getCurrentRecord (u : DNSUpdater) (w : World) (recordType : String) :
    List CallEvent × Except String (Option DNSRecordInfo) :=
  ([CallEvent.listRecords recordType u.Hostname],
    match w.listRecords recordType u.Hostname with
    | .error e => .error ("get " ++ recordType ++ " records: " ++ e)
    | .ok [] => .ok none
    | .ok (r :: _) => .ok (some ⟨r.id, r.content, r.proxied⟩))

/-- Models `needsUpdate` of the refactored updater. -/
def DNSUpdater.needsUpdate (u : DNSUpdater) (ipv4 ipv6 : String)
    (v4Record v6Record : Option DNSRecordInfo) : Bool :=
  (ipv4 != "" && (match v4Record with | none => true | some r => r.Content != ipv4)) ||
  (u.EnableIPv6 && ipv6 != "" && (match v6Record with | none => true | some r => r.Content != ipv6))

/-- Models `updateRecord` (singular) of the refactored updater: create a
new record with `proxied = true` when none exists, otherwise update in
place reusing the record's id and proxied flag. -/
def DNSUpdater.updateRecord (u : DNSUpdater) (w : World) (recordType : String)
    (record : Option DNSRecordInfo) (ipContent : String) :
    List CallEvent × Except String Bool :=
  match record with
  | none =>
    ([CallEvent.createRecord recordType u.Hostname ipContent true],
      w.createRecord recordType u.Hostname ipContent true)
  | some r =>
    ([CallEvent.updateRecord r.ID recordType u.Hostname ipContent r.Proxied],
      w.updateRecord r.ID recordType u.Hostname ipContent r.Proxied)

/-- The `v4Success, v4Err` computation of `updateRecords`: attempt the
IPv4 mutation when needed (`(trace, success, err)`); an unneeded family
counts as success. -/
def DNSUpdater.attemptV4 (u : DNSUpdater) (w : World) (ipv4 : String)
    (v4Record : Option DNSRecordInfo) : List CallEvent × Bool × Option String :=
  if ipv4 != "" && (match v4Record with | none => true | some r => r.Content != ipv4) then
    match u.updateRecord w RecordTypeA v4Record ipv4 with
    | (evs, .ok b) => (evs, b, none)
    | (evs, .error e) => (evs, false, some e)
  else
    ([], true, none)

/-- The `v6Success, v6Err` computation of `updateRecords`: attempt the
IPv6 mutation when enabled and needed; a disabled family counts as
success, an enabled family with nothing to do keeps the zero value
`false` without an error. -/
def DNSUpdater.attemptV6 (u : DNSUpdater) (w : World) (ipv6 : String)
    (v6Record : Option DNSRecordInfo) : List CallEvent × Bool × Option String :=
  if u.EnableIPv6 && ipv6 != "" && (match v6Record with | none => true | some r => r.Content != ipv6) then
    match u.updateRecord w RecordTypeAAAA v6Record ipv6 with
    | (evs, .ok b) => (evs, b, none)
    | (evs, .error e) => (evs, false, some e)
  else if !u.EnableIPv6 then
    ([], true, none)
  else
    ([], false, none)

/-- Models `updateRecords` of the refactored updater: attempt each needed
family, then fold the `(success, err)` pairs exactly as the source does. -/
def DNSUpdater.updateRecords (u : DNSUpdater) (w : World) (ipv4 ipv6 : String)
    (v4Record v6Record : Option DNSRecordInfo) :
    List CallEvent × String × Option String :=
  let v4res := u.attemptV4 w ipv4 v4Record
  let v6res := u.attemptV6 w ipv6 v6Record
  let evs := v4res.1 ++ v6res.1
  if !v4res.2.1 && v4res.2.2.isSome then
    (evs, StatusAuthError, some ("update IPv4 record: " ++ v4res.2.2.getD ""))
  else if !v6res.2.1 && v6res.2.2.isSome then
    (evs, StatusAuthError, some ("update IPv6 record: " ++ v6res.2.2.getD ""))
  else if v4res.2.1 || v6res.2.1 then
    (evs, StatusGood, none)
  else
    (evs, StatusAuthError, some "failed to update DNS records")

/-- The observable result of one run: the final updater state, the trace
of outbound calls, the returned status string and the returned error. -/
structure RunResult where
  updater : DNSUpdater
  trace : List CallEvent
  status : String
  err : Option String
deriving DecidableEq, Repr

/-- Models `Run` of the refactored updater. -/
def DNSUpdater.Run (u : DNSUpdater) (w : World) : RunResult :=
  match u.detectIPs w with
  | (u1, ev1, .error e) => ⟨u1, ev1, StatusAuthError, some ("IP detection failed: " ++ e)⟩
  | (u1, ev1, .ok (ipv4, ipv6)) =>
    let (ev2, r4) := u1.getCurrentRecord w RecordTypeA
    match r4 with
    | .error e => ⟨u1, ev1 ++ ev2, StatusAuthError, some e⟩
    | .ok v4Record =>
      let v6fetch : List CallEvent × Except String (Option DNSRecordInfo) :=
        if u1.EnableIPv6 && ipv6 != "" then
          u1.getCurrentRecord w RecordTypeAAAA
        else
          ([], .ok none)
      match v6fetch with
      | (ev3, .error e) => ⟨u1, ev1 ++ ev2 ++ ev3, StatusAuthError, some e⟩
      | (ev3, .ok v6Record) =>
        if !u1.needsUpdate ipv4 ipv6 v4Record v6Record then
          ⟨u1, ev1 ++ ev2 ++ ev3, StatusNoChange, none⟩
        else
          match u1.updateRecords w ipv4 ipv6 v4Record v6Record with
          | (ev4, _, some e) => ⟨u1, ev1 ++ ev2 ++ ev3 ++ ev4, StatusAuthError, some e⟩
          | (ev4, st, none) => ⟨u1, ev1 ++ ev2 ++ ev3 ++ ev4, st, none⟩

/-! ## Legacy single-file updater (`internal/updater.go`) -/

/-- Models the legacy `detectIPv4` (`internal/updater.go`): a single
`http.Get` of one endpoint, returning the raw body with no trimming and
no validation. -/
def legacyDetectIPv4 (w : World) : List CallEvent × Except String String :=
  ([CallEvent.httpGet "https://api.ipify.org"],
    match w.httpGet "https://api.ipify.org" with
    | some body => .ok body
    | none => .error "http get failed")

/-- Models the legacy `detectIPv6` (`internal/updater.go`): the same
service loop and interface fallback as the refactored `DetectIPv6`. -/
def legacyDetectIPv6 (w : World) : List CallEvent × Except String String :=
  match detectFromServices w IsIPv6 ipv6Services with
  | (evs, some ip) => (evs, .ok ip)
  | (evs, none) =>
    match w.ifaceV6 with
    | some ip => (evs, .ok ip)
    | none => (evs, .error "no IPv6 address found from external services or local interfaces")

/-- Models `Run` of the legacy single-file updater
(`internal/updater.go:60-189`), including its early returns with an
empty status string on errors and its `"authentication_failed"` /
`"update successful"` / `"no changes needed"` outcomes. -/
def legacyRun (u : DNSUpdater) (w : World) : RunResult :=
  -- step 1: resolve the addresses
  let step1 : DNSUpdater × List CallEvent × Except String (String × String) :=
    if u.IPAddr = "" then
      match legacyDetectIPv4 w with
      | (evs, .ok ip) => (u, evs, .ok (ip, ""))
      | (evs, .error e) => (u, evs, .error e)
    else if IsIPv4 u.IPAddr then
      (u, [], .ok (u.IPAddr, ""))
    else if IsIPv6 u.IPAddr then
      ({ u with EnableIPv6 := false }, [], .ok ("", u.IPAddr))
    else
      (u, [], .error "invalid IP address provided")
  match step1 with
  | (u1, ev1, .error e) => ⟨u1, ev1, "", some e⟩
  | (u1, ev1, .ok (ipv4, ipv60)) =>
    -- step 2: detect IPv6 when enabled and still missing
    let step2 : DNSUpdater × List CallEvent × String :=
      if u1.EnableIPv6 && ipv60 == "" then
        match legacyDetectIPv6 w with
        | (evs, .ok ip6) =>
          if ip6 != "" then (u1, evs, ip6) else ({ u1 with EnableIPv6 := false }, evs, ip6)
        | (evs, .error _) => ({ u1 with EnableIPv6 := false }, evs, "")
      else
        (u1, [], ipv60)
    match step2 with
    | (u2, ev2, ipv6) =>
      -- step 3: fetch the current A record when an IPv4 was resolved
      let v4fetch : List CallEvent × Except String (String × String × Bool) :=
        if ipv4 != "" then
          ([CallEvent.listRecords RecordTypeA u2.Hostname],
            match w.listRecords RecordTypeA u2.Hostname with
            | .error e => .error e
            | .ok [] => .ok ("", "", false)
            | .ok (r :: _) => .ok (r.id, r.content, r.proxied))
        else
          ([], .ok ("", "", false))
      match v4fetch with
      | (ev3, .error e) => ⟨u2, ev1 ++ ev2 ++ ev3, "", some e⟩
      | (ev3, .ok (recordID, recordIP, recordProxied)) =>
        let v6fetch : List CallEvent × Except String (String × String × Bool) :=
          if u2.EnableIPv6 && ipv6 != "" then
            ([CallEvent.listRecords RecordTypeAAAA u2.Hostname],
              match w.listRecords RecordTypeAAAA u2.Hostname with
              | .error e => .error e
              | .ok [] => .ok ("", "", false)
              | .ok (r :: _) => .ok (r.id, r.content, r.proxied))
          else
            ([], .ok ("", "", false))
        match v6fetch with
        | (ev4, .error e) => ⟨u2, ev1 ++ ev2 ++ ev3 ++ ev4, "", some e⟩
        | (ev4, .ok (recordIDv6, recordIPv6, recordProxiedv6)) =>
          if (ipv4 != "" && recordIP == ipv4) &&
              ((ipv6 != "" && recordIPv6 == ipv6) || !u2.EnableIPv6) then
            ⟨u2, ev1 ++ ev2 ++ ev3 ++ ev4, "no changes needed", none⟩
          else
            -- IPv4 mutation, with an early return on error
            let v4mut : List CallEvent × Except String Bool :=
              if ipv4 != "" && (recordIP != ipv4 || recordID == "") then
                if recordID == "" then
                  ([CallEvent.createRecord RecordTypeA u2.Hostname ipv4 true],
                    w.createRecord RecordTypeA u2.Hostname ipv4 true)
                else
                  ([CallEvent.updateRecord recordID RecordTypeA u2.Hostname ipv4 recordProxied],
                    w.updateRecord recordID RecordTypeA u2.Hostname ipv4 recordProxied)
              else
                ([], .ok true)
            match v4mut with
            | (ev5, .error e) => ⟨u2, ev1 ++ ev2 ++ ev3 ++ ev4 ++ ev5, "", some e⟩
            | (ev5, .ok updateIPv4Success) =>
              let v6mut : List CallEvent × Except String Bool :=
                if u2.EnableIPv6 && ipv6 != "" && (recordIPv6 != ipv6 || recordIDv6 == "") then
                  if recordIDv6 == "" then
                    ([CallEvent.createRecord RecordTypeAAAA u2.Hostname ipv6 true],
                      w.createRecord RecordTypeAAAA u2.Hostname ipv6 true)
                  else
                    ([CallEvent.updateRecord recordIDv6 RecordTypeAAAA u2.Hostname ipv6 recordProxiedv6],
                      w.updateRecord recordIDv6 RecordTypeAAAA u2.Hostname ipv6 recordProxiedv6)
                else if !u2.EnableIPv6 then
                  ([], .ok true)
                else
                  ([], .ok false)
              match v6mut with
              | (ev6, .error e) => ⟨u2, ev1 ++ ev2 ++ ev3 ++ ev4 ++ ev5 ++ ev6, "", some e⟩
              | (ev6, .ok updateIPv6Success) =>
                if updateIPv4Success || updateIPv6Success then
                  ⟨u2, ev1 ++ ev2 ++ ev3 ++ ev4 ++ ev5 ++ ev6, "update successful", none⟩
                else
                  ⟨u2, ev1 ++ ev2 ++ ev3 ++ ev4 ++ ev5 ++ ev6, "authentication_failed",
                    some "failed to update DNS records due to authentication error"⟩

/-! ## Process-facing output (`cmd/main.go`) -/

/-- Models the token `main` prints: `"missing-credentials"` when a
required parameter is empty, `"authentication-error"` when `Run`
returned an error, otherwise the status string `Run` returned. -/
def mainOutput (zoneID apiToken hostname : String) (runStatus : String)
    (runErr : Option String) : String :=
  if zoneID = "" || apiToken = "" || hostname = "" then
    "missing-credentials"
  else
    match runErr with
    | some _ => "authentication-error"
    | none => runStatus

/-- Head record of a listing, as `getCurrentRecord` reports it. -/
def headRecordInfo : List DNSRecord → Option DNSRecordInfo
  | [] => none
  | r :: _ => some ⟨r.id, r.content, r.proxied⟩

/-! ## Spec-side auxiliary predicates -/

/-- Specification-language counterpart of one regex octet: nonempty, all
decimal digits, and of length at most two or of length three with value
between 100 and 255. -/
def octetSpec (l : List Char) : Prop :=
  l ≠ [] ∧ (∀ c ∈ l, c.isDigit = true) ∧
    (l.length ≤ 2 ∨ (l.length = 3 ∧ 100 ≤ digitsVal l ∧ digitsVal l ≤ 255))

/-- Join character groups with a separator; inverse of `splitOnChar`. -/
def joinSep (sep : Char) : List (List Char) → List Char
  | [] => []
  | [g] => g
  | g :: gs => g ++ sep :: joinSep sep gs

/-- Modelled from the spec: the literal reading of "four-octet decimal
dotted-quad strings with each octet in [0,255]" — four dot-separated
fields, each a nonempty string of decimal digits whose value is at most
255.  Used only to compare the claim's wording against `IsIPv4`. -/
def specDottedQuadOctets (s : String) : Bool :=
  match splitOnChar '.' s.data with
  | [a, b, c, d] =>
    [a, b, c, d].all fun f => !f.isEmpty && f.all Char.isDigit && decide (digitsVal f ≤ 255)
  | _ => false

/-! ## Concrete configurations and worlds used as witness inputs -/

/-- A world in which every collaborator call fails. -/
def emptyWorld : World where
  httpGet := fun _ => none
  ifaceV6 := none
  listRecords := fun _ _ => .error "api down"
  createRecord := fun _ _ _ _ => .error "api down"
  updateRecord := fun _ _ _ _ _ => .error "api down"

/-- Configuration with an explicit IPv4 address and IPv6 enabled. -/
def uBoth : DNSUpdater := ⟨"zone", "token", "host", "1.2.3.4", true⟩

/-- World for the C1 counterexample: IPv6 detection succeeds, both
records exist with stale content, the A update fails with a transport
error while the AAAA update succeeds. -/
def wC1 : World where
  httpGet := fun url => if url = "https://api6.ipify.org" then some "2001:db8::1" else none
  ifaceV6 := none
  listRecords := fun t _ =>
    if t = "A" then .ok [⟨"idA", "A", "host", "9.9.9.9", false⟩]
    else .ok [⟨"idB", "AAAA", "host", "2001:db8::2", true⟩]
  createRecord := fun _ _ _ _ => .ok true
  updateRecord := fun id _ _ _ _ => if id = "idA" then .error "boom" else .ok true

/-- World for the C1 amended witness: as `wC1` but the A update is
answered with the API success flag `false` and no transport error. -/
def wC1b : World where
  httpGet := fun url => if url = "https://api6.ipify.org" then some "2001:db8::1" else none
  ifaceV6 := none
  listRecords := fun t _ =>
    if t = "A" then .ok [⟨"idA", "A", "host", "9.9.9.9", false⟩]
    else .ok [⟨"idB", "AAAA", "host", "2001:db8::2", true⟩]
  createRecord := fun _ _ _ _ => .ok true
  updateRecord := fun id _ _ _ _ => if id = "idA" then .ok false else .ok true

/-- Configuration with an explicit IPv4 address and IPv6 disabled. -/
def uV4Only : DNSUpdater := ⟨"zone", "token", "host", "1.2.3.4", false⟩

/-- World in which the A record already matches `uV4Only`'s address. -/
def wNoChange : World where
  httpGet := fun _ => none
  ifaceV6 := none
  listRecords := fun t _ =>
    if t = "A" then .ok [⟨"idA", "A", "host", "1.2.3.4", true⟩] else .ok []
  createRecord := fun _ _ _ _ => .error "api down"
  updateRecord := fun _ _ _ _ _ => .error "api down"

/-- World for the C3 witness: both addresses are detected and both
records already match. -/
def wC3 : World where
  httpGet := fun url =>
    if url = "https://api.ipify.org" then some "1.2.3.4"
    else if url = "https://api6.ipify.org" then some "2001:db8::1"
    else none
  ifaceV6 := none
  listRecords := fun t _ =>
    if t = "A" then .ok [⟨"idA", "A", "host", "1.2.3.4", false⟩]
    else .ok [⟨"idB", "AAAA", "host", "2001:db8::1", true⟩]
  createRecord := fun _ _ _ _ => .error "api down"
  updateRecord := fun _ _ _ _ _ => .error "api down"

/-- Configuration with no explicit address and IPv6 enabled. -/
def uDetect : DNSUpdater := ⟨"zone", "token", "host", "", true⟩

/-- World for the C4 witness: the A record exists with stale content and
no AAAA record exists, so the run updates one and creates the other. -/
def wC4 : World where
  httpGet := fun url => if url = "https://api6.ipify.org" then some "2001:db8::1" else none
  ifaceV6 := none
  listRecords := fun t _ =>
    if t = "A" then .ok [⟨"idA", "A", "host", "9.9.9.9", false⟩] else .ok []
  createRecord := fun _ _ _ _ => .ok true
  updateRecord := fun _ _ _ _ _ => .ok true

/-- Configuration with an explicit IPv6 address and IPv6 enabled. -/
def uV6Explicit : DNSUpdater := ⟨"zone", "token", "host", "2001:db8::1", true⟩

/-- Configuration with an invalid explicit address. -/
def uBadIP : DNSUpdater := ⟨"zone", "token", "host", "notanip", true⟩

/-- World for the C8 witness: the first IPv4 endpoint fails, the second
returns a malformed body, the third returns a valid address. -/
def wC8 : World where
  httpGet := fun url =>
    if url = "https://v4.ident.me/" then some "<html>error</html>"
    else if url = "https://ipv4.icanhazip.com/" then some " 203.0.113.7\n"
    else none
  ifaceV6 := none
  listRecords := fun _ _ => .error "api down"
  createRecord := fun _ _ _ _ => .error "api down"
  updateRecord := fun _ _ _ _ _ => .error "api down"

/-- World for the C10 amended witness: provider queries succeed with a
stale A record, mutations succeed, IPv6 detection fails. -/
def wC10 : World where
  httpGet := fun _ => none
  ifaceV6 := none
  listRecords := fun t _ =>
    if t = "A" then .ok [⟨"idA", "A", "host", "9.9.9.9", false⟩] else .ok []
  createRecord := fun _ _ _ _ => .ok true
  updateRecord := fun _ _ _ _ _ => .ok true

/-! ## Helper lemmas -/

theorem charToNat_inj {a b : Char} (h : a.toNat = b.toNat) : a = b :=
  Char.ext (UInt32.ext h)

theorem isDigit_toNat {c : Char} (h : c.isDigit = true) : 48 ≤ c.toNat ∧ c.toNat ≤ 57 := by
  simp only [Char.isDigit, Bool.and_eq_true, decide_eq_true_eq] at h
  exact ⟨h.1, h.2⟩

theorem toNat_isDigit {c : Char} (h1 : 48 ≤ c.toNat) (h2 : c.toNat ≤ 57) : c.isDigit = true := by
  simp only [Char.isDigit, Bool.and_eq_true, decide_eq_true_eq]
  exact ⟨h1, h2⟩

theorem digitVal_toNat (c : Char) : digitVal c = c.toNat - 48 := rfl

theorem digitsVal_three (a b c : Char) :
    digitsVal [a, b, c] = 100 * digitVal a + 10 * digitVal b + digitVal c := by
  simp only [digitsVal, List.foldl]
  ring

theorem isOctetRe_iff_octetSpec (l : List Char) : isOctetRe l = true ↔ octetSpec l := by
  match l with
  | [] => simp [isOctetRe, octetSpec]
  | [a] =>
    simp only [isOctetRe, octetSpec, List.length]
    constructor
    · intro h
      refine ⟨by simp, ?_, Or.inl (by omega)⟩
      intro c hc
      simp only [List.mem_singleton] at hc
      exact hc ▸ h
    · rintro ⟨-, hd, -⟩
      exact hd a (by simp)
  | [a, b] =>
    simp only [isOctetRe, octetSpec, List.length, Bool.and_eq_true]
    constructor
    · rintro ⟨ha, hb⟩
      refine ⟨by simp, ?_, Or.inl (by omega)⟩
      intro c hc
      rcases List.mem_pair.mp hc with rfl | rfl
      · exact ha
      · exact hb
    · rintro ⟨-, hd, -⟩
      exact ⟨hd a (by simp), hd b (by simp)⟩
  | [a, b, c] =>
    have hval := digitsVal_three a b c
    constructor
    · intro h
      simp only [isOctetRe, Bool.or_eq_true, Bool.and_eq_true, decide_eq_true_eq] at h
      rcases h with (⟨⟨⟨rfl, rfl⟩, h0c⟩, hc5⟩ | ⟨⟨⟨rfl, h0b⟩, hb4⟩, hc⟩) | ⟨⟨rfl, hb⟩, hc⟩
      · have hc0 : (48 : Nat) ≤ c.toNat := h0c
        have hc1 : c.toNat ≤ 53 := hc5
        have hcd : c.isDigit = true := toNat_isDigit hc0 (by omega)
        refine ⟨by simp, ?_, Or.inr ⟨rfl, ?_, ?_⟩⟩
        · intro x hx
          rcases List.mem_cons.mp hx with rfl | hx
          · decide
          rcases List.mem_pair.mp hx with rfl | rfl
          · decide
          · exact hcd
        · rw [hval, digitVal_toNat c, show digitVal '2' = 2 by decide,
            show digitVal '5' = 5 by decide]
          omega
        · rw [hval, digitVal_toNat c, show digitVal '2' = 2 by decide,
            show digitVal '5' = 5 by decide]
          omega
      · have hb0 : (48 : Nat) ≤ b.toNat := h0b
        have hb1 : b.toNat ≤ 52 := hb4
        have hbd : b.isDigit = true := toNat_isDigit hb0 (by omega)
        have hcd := isDigit_toNat hc
        refine ⟨by simp, ?_, Or.inr ⟨rfl, ?_, ?_⟩⟩
        · intro x hx
          rcases List.mem_cons.mp hx with rfl | hx
          · decide
          rcases List.mem_pair.mp hx with rfl | rfl
          · exact hbd
          · exact hc
        · rw [hval, digitVal_toNat c, digitVal_toNat b, show digitVal '2' = 2 by decide]
          omega
        · rw [hval, digitVal_toNat c, digitVal_toNat b, show digitVal '2' = 2 by decide]
          omega
      · have hbd := isDigit_toNat hb
        have hcd := isDigit_toNat hc
        refine ⟨by simp, ?_, Or.inr ⟨rfl, ?_, ?_⟩⟩
        · intro x hx
          rcases List.mem_cons.mp hx with rfl | hx
          · decide
          rcases List.mem_pair.mp hx with rfl | rfl
          · exact hb
          · exact hc
        · rw [hval, digitVal_toNat c, digitVal_toNat b, show digitVal '1' = 1 by decide]
          omega
        · rw [hval, digitVal_toNat c, digitVal_toNat b, show digitVal '1' = 1 by decide]
          omega
    · rintro ⟨-, hdig, h3⟩
      rcases h3 with h2 | ⟨-, hlo, hhi⟩
      · simp at h2
      have ha := isDigit_toNat (hdig a (by simp))
      have hb := isDigit_toNat (hdig b (by simp))
      have hc := isDigit_toNat (hdig c (by simp))
      rw [hval, digitVal_toNat a, digitVal_toNat b, digitVal_toNat c] at hlo hhi
      simp only [isOctetRe, Bool.or_eq_true, Bool.and_eq_true, decide_eq_true_eq]
      by_cases ha1 : a.toNat = 49
      · exact Or.inr ⟨⟨charToNat_inj (b := '1') ha1, hdig b (by simp)⟩, hdig c (by simp)⟩
      · have ha2 : a.toNat = 50 := by omega
        have ha2' : a = '2' := charToNat_inj (b := '2') ha2
        by_cases hb5 : b.toNat = 53
        · refine Or.inl (Or.inl ⟨⟨⟨ha2', charToNat_inj (b := '5') hb5⟩, ?_⟩, ?_⟩)
          · show (48 : Nat) ≤ c.toNat
            omega
          · show c.toNat ≤ 53
            omega
        · refine Or.inl (Or.inr ⟨⟨⟨ha2', ?_⟩, ?_⟩, hdig c (by simp)⟩)
          · show (48 : Nat) ≤ b.toNat
            omega
          · show b.toNat ≤ 52
            omega
  | a :: b :: c :: d :: t =>
    simp only [isOctetRe, octetSpec, List.length]
    constructor
    · intro h
      simp at h
    · rintro ⟨-, -, h2 | ⟨h3, -⟩⟩
      · omega
      · omega

theorem splitOnChar_ne_nil (sep : Char) (l : List Char) : splitOnChar sep l ≠ [] := by
  match l with
  | [] => simp [splitOnChar]
  | c :: cs =>
    simp only [splitOnChar]
    by_cases h : c = sep
    · simp [h]
    · simp only [h, if_false]
      have := splitOnChar_ne_nil sep cs
      match hs : splitOnChar sep cs with
      | [] => exact absurd hs this
      | g :: gs => simp

theorem joinSep_splitOnChar (sep : Char) (l : List Char) :
    joinSep sep (splitOnChar sep l) = l := by
  match l with
  | [] => simp [splitOnChar, joinSep]
  | c :: cs =>
    have ih := joinSep_splitOnChar sep cs
    have hne := splitOnChar_ne_nil sep cs
    simp only [splitOnChar]
    by_cases h : c = sep
    · simp only [h, if_true]
      match hs : splitOnChar sep cs with
      | [] => exact absurd hs hne
      | g :: gs =>
        rw [hs] at ih
        show joinSep sep ([] :: g :: gs) = sep :: cs
        simp only [joinSep]
        rw [ih]
        simp
    · simp only [h, if_false]
      match hs : splitOnChar sep cs with
      | [] => exact absurd hs hne
      | [g] =>
        rw [hs] at ih
        show joinSep sep [c :: g] = c :: cs
        simp only [joinSep] at ih ⊢
        rw [← ih]
      | g :: g2 :: gs =>
        rw [hs] at ih
        show joinSep sep ((c :: g) :: g2 :: gs) = c :: cs
        simp only [joinSep] at ih ⊢
        rw [← ih]
        simp

theorem IsIPv4_split {s : String} (h : IsIPv4 s = true) :
    ∃ a b c d, splitOnChar '.' s.data = [a, b, c, d] ∧
      isOctetRe a = true ∧ isOctetRe b = true ∧ isOctetRe c = true ∧ isOctetRe d = true := by
  unfold IsIPv4 at h
  match hs : splitOnChar '.' s.data with
  | [a, b, c, d] =>
    rw [hs] at h
    simp only [Bool.and_eq_true] at h
    exact ⟨a, b, c, d, rfl, h.1.1.1, h.1.1.2, h.1.2, h.2⟩
  | [] => rw [hs] at h; simp at h
  | [a] => rw [hs] at h; simp at h
  | [a, b] => rw [hs] at h; simp at h
  | [a, b, c] => rw [hs] at h; simp at h
  | a :: b :: c :: d :: e :: t => rw [hs] at h; simp at h

theorem isOctetRe_digits {l : List Char} (h : isOctetRe l = true) :
    ∀ c ∈ l, c.isDigit = true :=
  ((isOctetRe_iff_octetSpec l).mp h).2.1

theorem IsIPv4_chars {s : String} (h : IsIPv4 s = true) :
    '.' ∈ s.data ∧ ∀ x ∈ s.data, x.isDigit = true ∨ x = '.' := by
  obtain ⟨a, b, c, d, hs, ha, hb, hc, hd⟩ := IsIPv4_split h
  have hj := joinSep_splitOnChar '.' s.data
  rw [hs] at hj
  simp only [joinSep] at hj
  constructor
  · rw [← hj]
    simp
  · intro x hx
    rw [← hj] at hx
    simp only [List.mem_append, List.mem_cons] at hx
    rcases hx with hxa | hxb | hxc
    · exact Or.inl (isOctetRe_digits ha x hxa)
    · exact Or.inr hxb
    rcases hxc with hxb | hxc | hxd
    · exact Or.inl (isOctetRe_digits hb x hxb)
    · exact Or.inr hxc
    rcases hxd with hxc | hxd | hxe
    · exact Or.inl (isOctetRe_digits hc x hxc)
    · exact Or.inr hxd
    · exact Or.inl (isOctetRe_digits hd x hxe)

theorem IsIPv6_eq_false_of_IsIPv4 {s : String} (h : IsIPv4 s = true) :
    IsIPv6 s = false := by
  obtain ⟨hdot, hchars⟩ := IsIPv4_chars h
  have hsome : (s.data.find? goSpecialChar).isSome := by
    rw [List.find?_isSome]
    exact ⟨'.', hdot, by decide⟩
  obtain ⟨c, hc⟩ := Option.isSome_iff_exists.mp hsome
  have hpc : goSpecialChar c = true := List.find?_some hc
  have hmem : c ∈ s.data := List.mem_of_find?_eq_some hc
  have hcdot : c = '.' := by
    rcases hchars c hmem with hd | hd
    · simp only [goSpecialChar, Bool.or_eq_true, decide_eq_true_eq] at hpc
      rcases hpc with (rfl | rfl) | rfl
      · rfl
      · simp [Char.isDigit] at hd
      · simp [Char.isDigit] at hd
    · exact hd
  subst hcdot
  unfold IsIPv6 goParseIP
  rw [hc]
  simp only [if_pos rfl]
  match goParseV4 s.data with
  | none => rfl
  | some t => rfl

theorem IsIPv4_iff_octets (s : String) :
    IsIPv4 s = true ↔ ∃ a b c d, splitOnChar '.' s.data = [a, b, c, d] ∧
      octetSpec a ∧ octetSpec b ∧ octetSpec c ∧ octetSpec d := by
  constructor
  · intro h
    obtain ⟨a, b, c, d, hs, ha, hb, hc, hd⟩ := IsIPv4_split h
    exact ⟨a, b, c, d, hs, (isOctetRe_iff_octetSpec a).mp ha, (isOctetRe_iff_octetSpec b).mp hb,
      (isOctetRe_iff_octetSpec c).mp hc, (isOctetRe_iff_octetSpec d).mp hd⟩
  · rintro ⟨a, b, c, d, hs, ha, hb, hc, hd⟩
    unfold IsIPv4
    rw [hs]
    simp only [Bool.and_eq_true]
    exact ⟨⟨⟨(isOctetRe_iff_octetSpec a).mpr ha, (isOctetRe_iff_octetSpec b).mpr hb⟩,
      (isOctetRe_iff_octetSpec c).mpr hc⟩, (isOctetRe_iff_octetSpec d).mpr hd⟩

/-! ## Claim C9 -/

/-- C9 (amended): `IsIPv4` and `IsIPv6` are never both true, and
`IsIPv4` holds exactly for four-octet dotted quads whose octets are
nonempty digit strings of length at most two, or of length three with
value between 100 and 255 (so two-digit octets may carry a leading zero,
while an in-range octet written with three or more digits and a leading
zero, such as `000`, is rejected). -/
theorem claim_C9 (s : String) :
    (IsIPv4 s && IsIPv6 s) = false ∧
    (IsIPv4 s = true ↔ ∃ a b c d, splitOnChar '.' s.data = [a, b, c, d] ∧
      octetSpec a ∧ octetSpec b ∧ octetSpec c ∧ octetSpec d) := by
  constructor
  · cases h4 : IsIPv4 s
    · simp
    · simp [IsIPv6_eq_false_of_IsIPv4 h4]
  · exact IsIPv4_iff_octets s

/-- C9 witness: the amended theorem applied at a concrete address. -/
theorem claim_C9_witness :
    (IsIPv4 "203.0.113.7" && IsIPv6 "203.0.113.7") = false :=
  (claim_C9 "203.0.113.7").1

/-- C9 counterexample: `"1.2.3.000"` is a four-octet decimal dotted quad
with every octet value in `[0,255]` (octet values 1, 2, 3, 0), yet
`IsIPv4` rejects it — so `IsIPv4` does not hold "exactly for four-octet
decimal dotted-quad strings with each octet in [0,255]", and as a valid
literal of exactly one family it has neither predicate true. -/
theorem claim_C9_counterexample :
    specDottedQuadOctets "1.2.3.000" = true ∧ IsIPv4 "1.2.3.000" = false ∧
      IsIPv6 "1.2.3.000" = false := by
  refine ⟨by decide, by decide, by decide⟩

/-! ## Claim C1 -/

/-- C1 (amended): when both families are enabled and both need a
mutation, both mutations are always attempted, and if one family's
mutation fails because the provider merely reports non-success (no
transport error) while the other family's succeeds, `Run` returns the
success outcome.  (The unamended claim fails when the losing mutation
returns a transport error: then `updateRecords` returns the auth-error
status even though the other family's mutation was attempted and
succeeded — see the counterexample.) -/
theorem claim_C1 (u : DNSUpdater) (w : World) (b6 : String) (rA rB : DNSRecord)
    (tA tB : List DNSRecord)
    (h4 : IsIPv4 u.IPAddr = true)
    (h6 : u.EnableIPv6 = true)
    (hget : w.httpGet "https://api6.ipify.org" = some b6)
    (hb6 : IsIPv6 (goTrimSpace b6) = true)
    (hA : w.listRecords RecordTypeA u.Hostname = .ok (rA :: tA))
    (hB : w.listRecords RecordTypeAAAA u.Hostname = .ok (rB :: tB))
    (hAc : (rA.content == u.IPAddr) = false)
    (hBc : (rB.content == goTrimSpace b6) = false)
    (hAm : w.updateRecord rA.id RecordTypeA u.Hostname u.IPAddr rA.proxied = .ok false)
    (hBm : w.updateRecord rB.id RecordTypeAAAA u.Hostname (goTrimSpace b6) rB.proxied = .ok true) :
    (u.Run w).status = StatusGood ∧ (u.Run w).err = none ∧
      CallEvent.updateRecord rA.id RecordTypeA u.Hostname u.IPAddr rA.proxied ∈ (u.Run w).trace ∧
      CallEvent.updateRecord rB.id RecordTypeAAAA u.Hostname (goTrimSpace b6) rB.proxied ∈ (u.Run w).trace := by
  have hne : ¬(u.IPAddr = "") := by
    intro h
    rw [h] at h4
    exact absurd h4 (by decide)
  have hb6ne : ¬(goTrimSpace b6 = "") := by
    intro h
    rw [h] at hb6
    exact absurd hb6 (by decide)
  have hne' : (u.IPAddr == "") = false := beq_eq_false_iff_ne.mpr hne
  have hb6ne' : (goTrimSpace b6 == "") = false := beq_eq_false_iff_ne.mpr hb6ne
  have hdet : u.detectIPs w =
      (u, [CallEvent.httpGet "https://api6.ipify.org"], .ok (u.IPAddr, goTrimSpace b6)) := by
    simp [DNSUpdater.detectIPs, if_neg hne, h4, h6, IPDetector.DetectIPv6, ipv6Services,
      detectFromServices, hget, hb6]
  simp only [DNSUpdater.Run, hdet, DNSUpdater.getCurrentRecord, hA, hB, h6,
    DNSUpdater.needsUpdate, DNSUpdater.updateRecords, DNSUpdater.attemptV4,
    DNSUpdater.attemptV6, DNSUpdater.updateRecord,
    bne, hne', hb6ne', hAc, hBc, hAm, hBm, Bool.true_and, Bool.not_false, Bool.not_true,
    Bool.and_true, Bool.and_false, Bool.false_and, Bool.or_true, Bool.true_or,
    Option.isSome_none, Bool.and_self, if_true, if_false]
  simp [List.mem_append]

/-- C1 witness: the amended theorem instantiated at `uBoth` / `wC1b`. -/
theorem claim_C1_witness :
    (DNSUpdater.Run uBoth wC1b).status = StatusGood ∧
      (DNSUpdater.Run uBoth wC1b).err = none ∧
      CallEvent.updateRecord "idA" RecordTypeA uBoth.Hostname uBoth.IPAddr false ∈
        (DNSUpdater.Run uBoth wC1b).trace ∧
      CallEvent.updateRecord "idB" RecordTypeAAAA uBoth.Hostname (goTrimSpace "2001:db8::1") true ∈
        (DNSUpdater.Run uBoth wC1b).trace :=
  claim_C1 uBoth wC1b "2001:db8::1" ⟨"idA", "A", "host", "9.9.9.9", false⟩
    ⟨"idB", "AAAA", "host", "2001:db8::2", true⟩ [] []
    (by decide) (by decide) (by rfl) (by decide) (by rfl) (by rfl)
    (by decide) (by decide) (by rfl) (by rfl)

/-- C1 counterexample: in `wC1` both families are enabled and both need a
mutation; the AAAA mutation is attempted and succeeds, the A mutation
fails with a transport error, and `Run` returns the auth-error status
with an error instead of the success outcome. -/
theorem claim_C1_counterexample :
    (DNSUpdater.Run uBoth wC1).status = StatusAuthError ∧
      (DNSUpdater.Run uBoth wC1).err = some "update IPv4 record: boom" ∧
      (StatusAuthError == StatusGood) = false ∧
      CallEvent.updateRecord "idA" "A" "host" "1.2.3.4" false ∈ (DNSUpdater.Run uBoth wC1).trace ∧
      CallEvent.updateRecord "idB" "AAAA" "host" "2001:db8::1" true ∈ (DNSUpdater.Run uBoth wC1).trace ∧
      wC1.updateRecord "idB" "AAAA" "host" "2001:db8::1" true = .ok true := by
  refine ⟨by decide, by decide, by decide, by decide, by decide, by rfl⟩

/-! ## Claim C2 -/

/-- C2: evaluating the program at a run that needs no change shows the
process-facing token is `"no changes needed"`, which is none of the three
documented tokens `good` / `nochg` / `badauth`; the success and error
paths print `"update successful"` and `"authentication-error"`, which are
not among them either.  This contradicts the repository's own README
("Return Values": `good`, `nochg`, `badauth`), so the code, not the
claim, is at fault. -/
theorem claim_C2 :
    mainOutput "zone" "token" "host" (DNSUpdater.Run uV4Only wNoChange).status
        (DNSUpdater.Run uV4Only wNoChange).err = "no changes needed" ∧
      (["good", "nochg", "badauth"].contains "no changes needed") = false ∧
      (["good", "nochg", "badauth"].contains "update successful") = false ∧
      (["good", "nochg", "badauth"].contains "authentication-error") = false := by
  refine ⟨by decide, by decide, by decide, by decide⟩

/-! ## Claim C7 -/

/-- In every branch, `detectIPs` returns the updater unchanged or with
only `EnableIPv6` cleared. -/
theorem detectIPs_updater (u : DNSUpdater) (w : World) :
    (u.detectIPs w).1 = u ∨ (u.detectIPs w).1 = { u with EnableIPv6 := false } := by
  unfold DNSUpdater.detectIPs
  by_cases h1 : u.IPAddr = ""
  · rcases hd : IPDetector.DetectIPv4 w with ⟨evs, r⟩
    rcases r with e | ip
    · simp [h1, hd]
    · by_cases h6 : u.EnableIPv6
      · rcases hd6 : IPDetector.DetectIPv6 w with ⟨evs2, r2⟩
        rcases r2 with e2 | ip6
        · simp [h1, hd, h6, hd6]
        · simp [h1, hd, h6, hd6]
      · simp [h1, hd, h6]
  · by_cases h4 : IsIPv4 u.IPAddr
    · by_cases h6 : u.EnableIPv6
      · rcases hd6 : IPDetector.DetectIPv6 w with ⟨evs2, r2⟩
        rcases r2 with e2 | ip6
        · simp [h1, h4, h6, hd6]
        · simp [h1, h4, h6, hd6]
      · simp [h1, h4, h6]
    · by_cases h8 : IsIPv6 u.IPAddr
      · simp [h1, h4, h8]
      · simp [h1, h4, h8]

/-- `Run` returns the updater produced by `detectIPs` unchanged. -/
theorem Run_updater (u : DNSUpdater) (w : World) :
    (u.Run w).updater = (u.detectIPs w).1 := by
  unfold DNSUpdater.Run
  rcases hd : u.detectIPs w with ⟨u1, ev1, r⟩
  rcases r with e | ⟨ipv4, ipv6⟩
  · simp [hd]
  · rcases hA : u1.getCurrentRecord w RecordTypeA with ⟨ev2, r4⟩
    rcases r4 with e | v4rec
    · simp [hd, hA]
    · by_cases hc : (u1.EnableIPv6 && ipv6 != "") = true
      · rcases hB : u1.getCurrentRecord w RecordTypeAAAA with ⟨ev3, r6⟩
        rcases r6 with e | v6rec
        · simp [hd, hA, hc, hB]
        · by_cases hn : u1.needsUpdate ipv4 ipv6 v4rec v6rec
          · rcases hU : u1.updateRecords w ipv4 ipv6 v4rec v6rec with ⟨ev4, st, er⟩
            rcases er with _ | e
            · simp [hd, hA, hc, hB, hn, hU]
            · simp [hd, hA, hc, hB, hn, hU]
          · simp [hd, hA, hc, hB, hn]
      · have hc2 : (u1.EnableIPv6 && ipv6 != "") = false := by
          simpa using hc
        by_cases hn : u1.needsUpdate ipv4 ipv6 v4rec none
        · rcases hU : u1.updateRecords w ipv4 ipv6 v4rec none with ⟨ev4, st, er⟩
          rcases er with _ | e
          · simp [hd, hA, hc2, hn, hU]
          · simp [hd, hA, hc2, hn, hU]
        · simp [hd, hA, hc2, hn]

/-- C7 (amended): the zone identifier, credential, hostname and explicit
IP of the configuration are unmodified by `Run`; the IPv6-enabled flag
is not — it may be cleared (never set) during a run, on an explicit IPv6
input or an IPv6 detection failure. -/
theorem claim_C7 (u : DNSUpdater) (w : World) :
    (u.Run w).updater.ZoneID = u.ZoneID ∧ (u.Run w).updater.APIToken = u.APIToken ∧
      (u.Run w).updater.Hostname = u.Hostname ∧ (u.Run w).updater.IPAddr = u.IPAddr ∧
      ((u.Run w).updater.EnableIPv6 = true → u.EnableIPv6 = true) := by
  have h := Run_updater u w
  rcases detectIPs_updater u w with h2 | h2 <;> rw [h, h2] <;> simp

/-- C7 witness: the amended theorem instantiated at a concrete run. -/
theorem claim_C7_witness :
    (DNSUpdater.Run uV4Only emptyWorld).updater.ZoneID = uV4Only.ZoneID ∧
      (DNSUpdater.Run uV4Only emptyWorld).updater.APIToken = uV4Only.APIToken ∧
      (DNSUpdater.Run uV4Only emptyWorld).updater.Hostname = uV4Only.Hostname ∧
      (DNSUpdater.Run uV4Only emptyWorld).updater.IPAddr = uV4Only.IPAddr ∧
      ((DNSUpdater.Run uV4Only emptyWorld).updater.EnableIPv6 = true →
        uV4Only.EnableIPv6 = true) :=
  claim_C7 uV4Only emptyWorld

/-- C7 counterexample: with the explicit IPv6 input `"2001:db8::1"` the
configured `EnableIPv6 = true` flag is mutated to `false` during `Run`,
so the run configuration is not immutable. -/
theorem claim_C7_counterexample :
    uV6Explicit.EnableIPv6 = true ∧
      (DNSUpdater.Run uV6Explicit emptyWorld).updater.EnableIPv6 = false := by
  refine ⟨by decide, by decide⟩


theorem updateRecord_events (u : DNSUpdater) (w : World) (rt : String)
    (record : Option DNSRecordInfo) (ip : String) :
    ∀ e ∈ (u.updateRecord w rt record ip).1, e.isMutation = true := by
  intro e he
  cases record with
  | none =>
    simp only [DNSUpdater.updateRecord, List.mem_singleton] at he
    subst he
    rfl
  | some r =>
    simp only [DNSUpdater.updateRecord, List.mem_singleton] at he
    subst he
    rfl

theorem attemptV4_fst (u : DNSUpdater) (w : World) (ipv4 : String)
    (v4r : Option DNSRecordInfo) :
    (u.attemptV4 w ipv4 v4r).1 =
      if (ipv4 != "" && (match v4r with | none => true | some r => r.Content != ipv4)) = true
        then (u.updateRecord w RecordTypeA v4r ipv4).1 else [] := by
  unfold DNSUpdater.attemptV4
  split
  · rcases u.updateRecord w RecordTypeA v4r ipv4 with ⟨evs, r⟩
    cases r <;> rfl
  · rfl

theorem attemptV6_fst (u : DNSUpdater) (w : World) (ipv6 : String)
    (v6r : Option DNSRecordInfo) :
    (u.attemptV6 w ipv6 v6r).1 =
      if (u.EnableIPv6 && ipv6 != "" && (match v6r with | none => true | some r => r.Content != ipv6)) = true
        then (u.updateRecord w RecordTypeAAAA v6r ipv6).1 else [] := by
  unfold DNSUpdater.attemptV6
  split
  · rcases u.updateRecord w RecordTypeAAAA v6r ipv6 with ⟨evs, r⟩
    cases r <;> rfl
  · split <;> rfl

theorem updateRecords_fst (u : DNSUpdater) (w : World) (ipv4 ipv6 : String)
    (v4r v6r : Option DNSRecordInfo) :
    (u.updateRecords w ipv4 ipv6 v4r v6r).1 =
      (u.attemptV4 w ipv4 v4r).1 ++ (u.attemptV6 w ipv6 v6r).1 := by
  unfold DNSUpdater.updateRecords
  rcases hx : u.attemptV4 w ipv4 v4r with ⟨evA, bA, e4⟩
  rcases hy : u.attemptV6 w ipv6 v6r with ⟨evB, bB, e6⟩
  cases bA <;> cases bB <;> rcases e4 with _ | s4 <;> rcases e6 with _ | s6 <;> simp

theorem updateRecords_events (u : DNSUpdater) (w : World) (ipv4 ipv6 : String)
    (v4r v6r : Option DNSRecordInfo) :
    ∀ e ∈ (u.updateRecords w ipv4 ipv6 v4r v6r).1, e.isMutation = true := by
  intro e he
  rw [updateRecords_fst] at he
  rw [List.mem_append] at he
  rcases he with he | he
  · rw [attemptV4_fst] at he
    split at he
    · exact updateRecord_events u w RecordTypeA v4r ipv4 e he
    · exact absurd he (List.not_mem_nil e)
  · rw [attemptV6_fst] at he
    split at he
    · exact updateRecord_events u w RecordTypeAAAA v6r ipv6 e he
    · exact absurd he (List.not_mem_nil e)

theorem detectFromServices_events (w : World) (valid : String → Bool) (l : List String) :
    ∀ e ∈ (detectFromServices w valid l).1, e.isHttpGet = true := by
  induction l with
  | nil => simp [detectFromServices]
  | cons svc rest ih =>
    intro e he
    cases hg : w.httpGet svc with
    | none =>
      simp only [detectFromServices, hg, List.mem_cons] at he
      rcases he with rfl | he
      · rfl
      · exact ih e he
    | some body =>
      by_cases hv : valid (goTrimSpace body) = true
      · simp only [detectFromServices, hg, hv, if_true, List.mem_singleton] at he
        subst he
        rfl
      · simp only [detectFromServices, hg, hv, if_false, Bool.false_eq_true, List.mem_cons] at he
        rcases he with rfl | he
        · rfl
        · exact ih e he

theorem DetectIPv4_events (w : World) :
    ∀ e ∈ (IPDetector.DetectIPv4 w).1, e.isHttpGet = true := by
  intro e he
  have h := detectFromServices_events w IsIPv4 ipv4Services
  rcases hr : detectFromServices w IsIPv4 ipv4Services with ⟨evs, r⟩
  rw [hr] at h
  unfold IPDetector.DetectIPv4 at he
  rw [hr] at he
  cases r with
  | none => exact h e he
  | some ip => exact h e he

theorem DetectIPv6_events (w : World) :
    ∀ e ∈ (IPDetector.DetectIPv6 w).1, e.isHttpGet = true := by
  intro e he
  have h := detectFromServices_events w IsIPv6 ipv6Services
  rcases hr : detectFromServices w IsIPv6 ipv6Services with ⟨evs, r⟩
  rw [hr] at h
  unfold IPDetector.DetectIPv6 at he
  rw [hr] at he
  cases r with
  | none =>
    cases hw : w.ifaceV6 with
    | none => rw [hw] at he; exact h e he
    | some ip => rw [hw] at he; exact h e he
  | some ip => exact h e he

theorem detectIPs_events (u : DNSUpdater) (w : World) :
    ∀ e ∈ (u.detectIPs w).2.1, e.isHttpGet = true := by
  intro e he
  unfold DNSUpdater.detectIPs at he
  by_cases h1 : u.IPAddr = ""
  · rcases hd : IPDetector.DetectIPv4 w with ⟨evs, r⟩
    have h4e := DetectIPv4_events w
    rw [hd] at h4e
    rcases r with err | ip
    · simp only [h1, if_true, hd] at he
      exact h4e e he
    · simp only [h1, if_true, hd] at he
      by_cases h6 : u.EnableIPv6
      · rcases hd6 : IPDetector.DetectIPv6 w with ⟨evs2, r2⟩
        have h6e := DetectIPv6_events w
        rw [hd6] at h6e
        rcases r2 with err2 | ip6 <;>
        · simp only [h6, hd6, Bool.true_and, if_true, String.reduceBEq] at he
          simp only [List.mem_append] at he
          rcases he with he | he
          · exact h4e e he
          · exact h6e e he
      · simp only [h6, Bool.false_and, if_false] at he
        exact h4e e he
  · by_cases h4 : IsIPv4 u.IPAddr
    · simp only [h1, if_false, h4, if_true] at he
      by_cases h6 : u.EnableIPv6
      · rcases hd6 : IPDetector.DetectIPv6 w with ⟨evs2, r2⟩
        have h6e := DetectIPv6_events w
        rw [hd6] at h6e
        rcases r2 with err2 | ip6 <;>
        · simp only [h6, hd6, Bool.true_and, if_true, String.reduceBEq] at he
          simp only [List.nil_append, List.mem_append] at he
          exact h6e e he
      · simp only [h6, Bool.false_and, if_false] at he
        exact absurd he (List.not_mem_nil e)
    · by_cases h8 : IsIPv6 u.IPAddr
      · simp only [h1, h4, h8, if_false, if_true] at he
        simp at he
      · simp only [h1, h4, h8, if_false] at he
        simp at he

theorem isHttpGet_not_mutation {e : CallEvent} (h : e.isHttpGet = true) :
    e.isMutation = false := by
  cases e <;> simp [CallEvent.isHttpGet, CallEvent.isMutation] at h ⊢

theorem getCurrentRecord_eq (u : DNSUpdater) (w : World) (rt : String) (recs : List DNSRecord)
    (h : w.listRecords rt u.Hostname = .ok recs) :
    u.getCurrentRecord w rt = ([CallEvent.listRecords rt u.Hostname], .ok (headRecordInfo recs)) := by
  unfold DNSUpdater.getCurrentRecord headRecordInfo
  rw [h]
  cases recs <;> rfl

theorem Run_nochange (u : DNSUpdater) (w : World) (u1 : DNSUpdater) (ev1 : List CallEvent)
    (ipv4 ipv6 : String) (recsA : List DNSRecord) (ev3 : List CallEvent)
    (v6rec : Option DNSRecordInfo)
    (hdet : u.detectIPs w = (u1, ev1, .ok (ipv4, ipv6)))
    (hA : w.listRecords RecordTypeA u1.Hostname = .ok recsA)
    (hfetch6 : (if u1.EnableIPv6 && ipv6 != "" then u1.getCurrentRecord w RecordTypeAAAA
      else ([], .ok none)) = (ev3, .ok v6rec))
    (hnu : u1.needsUpdate ipv4 ipv6 (headRecordInfo recsA) v6rec = false) :
    u.Run w = ⟨u1, ev1 ++ [CallEvent.listRecords RecordTypeA u1.Hostname] ++ ev3,
      StatusNoChange, none⟩ := by
  simp only [DNSUpdater.Run, hdet, getCurrentRecord_eq u1 w RecordTypeA recsA hA,
    hfetch6, hnu, Bool.not_false, if_true]

/-- C3: if the addresses resolve, the A listing succeeds and, for every
present/enabled family, the current remote record exists with content
exactly (string-)equal to the resolved address, then `Run` returns the
no-change outcome with no error and issues no mutating call.  ("The
current remote record exists" presupposes the provider listings succeed;
when no family is present/enabled the hypotheses hold vacuously and the
refactored `Run` still returns `NoChange`.) -/
theorem claim_C3 (u : DNSUpdater) (w : World) (u1 : DNSUpdater) (ev1 : List CallEvent)
    (ipv4 ipv6 : String) (recsA : List DNSRecord)
    (hdet : u.detectIPs w = (u1, ev1, .ok (ipv4, ipv6)))
    (hA : w.listRecords RecordTypeA u1.Hostname = .ok recsA)
    (hAmatch : ipv4 ≠ "" → ∃ r t, recsA = r :: t ∧ r.content = ipv4)
    (hB : u1.EnableIPv6 = true → ipv6 ≠ "" →
      ∃ r t, w.listRecords RecordTypeAAAA u1.Hostname = .ok (r :: t) ∧ r.content = ipv6) :
    (u.Run w).status = StatusNoChange ∧ (u.Run w).err = none ∧
      ∀ e ∈ (u.Run w).trace, e.isMutation = false := by
  have hev1 : ∀ e ∈ ev1, e.isHttpGet = true := by
    have h := detectIPs_events u w
    rw [hdet] at h
    exact h
  by_cases hc : (u1.EnableIPv6 && ipv6 != "") = true
  · have h6 : u1.EnableIPv6 = true := ((Bool.and_eq_true _ _).mp hc).1
    have hip6 : ipv6 ≠ "" := by
      have h2 := ((Bool.and_eq_true _ _).mp hc).2
      simpa using h2
    obtain ⟨r6, t6, hlist6, hcont6⟩ := hB h6 hip6
    subst hcont6
    have hfetch6 : (if u1.EnableIPv6 && r6.content != "" then u1.getCurrentRecord w RecordTypeAAAA
        else ([], .ok none)) =
        ([CallEvent.listRecords RecordTypeAAAA u1.Hostname],
          .ok (some ⟨r6.id, r6.content, r6.proxied⟩)) := by
      rw [if_pos hc, getCurrentRecord_eq u1 w RecordTypeAAAA (r6 :: t6) hlist6]
      rfl
    have hnu : u1.needsUpdate ipv4 r6.content (headRecordInfo recsA)
        (some ⟨r6.id, r6.content, r6.proxied⟩) = false := by
      unfold DNSUpdater.needsUpdate
      simp only [bne_self_eq_false, Bool.and_false, Bool.or_false]
      by_cases hip4 : ipv4 = ""
      · simp [hip4]
      · obtain ⟨r, t, hrecs, hcont⟩ := hAmatch hip4
        subst hrecs
        subst hcont
        simp [headRecordInfo, bne_self_eq_false]
    have hrun := Run_nochange u w u1 ev1 ipv4 r6.content recsA _ _ hdet hA hfetch6 hnu
    rw [hrun]
    refine ⟨rfl, rfl, ?_⟩
    intro e he
    simp only [List.mem_append, List.mem_singleton] at he
    rcases he with (he | rfl) | rfl
    · exact isHttpGet_not_mutation (hev1 e he)
    · rfl
    · rfl
  · have hc2 : (u1.EnableIPv6 && ipv6 != "") = false := by
      simpa using hc
    have hfetch6 : (if u1.EnableIPv6 && ipv6 != "" then u1.getCurrentRecord w RecordTypeAAAA
        else ([], .ok none)) = (([] : List CallEvent), .ok (none : Option DNSRecordInfo)) := by
      rw [if_neg hc]
    have hnu : u1.needsUpdate ipv4 ipv6 (headRecordInfo recsA) none = false := by
      unfold DNSUpdater.needsUpdate
      simp only [hc2, Bool.false_and, Bool.or_false]
      by_cases hip4 : ipv4 = ""
      · simp [hip4]
      · obtain ⟨r, t, hrecs, hcont⟩ := hAmatch hip4
        subst hrecs
        subst hcont
        simp [headRecordInfo, bne_self_eq_false]
    have hrun := Run_nochange u w u1 ev1 ipv4 ipv6 recsA _ _ hdet hA hfetch6 hnu
    rw [hrun]
    refine ⟨rfl, rfl, ?_⟩
    intro e he
    simp only [List.append_nil, List.mem_append, List.mem_singleton] at he
    rcases he with he | rfl
    · exact isHttpGet_not_mutation (hev1 e he)
    · rfl

/-- C3 witness: the theorem instantiated at a detection-based run whose
records both match. -/
theorem claim_C3_witness :
    (DNSUpdater.Run uDetect wC3).status = StatusNoChange ∧
      (DNSUpdater.Run uDetect wC3).err = none ∧
      ∀ e ∈ (DNSUpdater.Run uDetect wC3).trace, e.isMutation = false :=
  claim_C3 uDetect wC3 uDetect
    [CallEvent.httpGet "https://api.ipify.org", CallEvent.httpGet "https://api6.ipify.org"]
    "1.2.3.4" "2001:db8::1" [⟨"idA", "A", "host", "1.2.3.4", false⟩]
    (by rfl) (by rfl)
    (fun _ => ⟨⟨"idA", "A", "host", "1.2.3.4", false⟩, [], rfl, rfl⟩)
    (fun _ _ => ⟨⟨"idB", "AAAA", "host", "2001:db8::1", true⟩, [], rfl, rfl⟩)

theorem Run_update_mem (u : DNSUpdater) (w : World) (u1 : DNSUpdater) (ev1 : List CallEvent)
    (ipv4 ipv6 : String) (recsA : List DNSRecord) (ev3 : List CallEvent)
    (v6rec : Option DNSRecordInfo)
    (hdet : u.detectIPs w = (u1, ev1, .ok (ipv4, ipv6)))
    (hA : w.listRecords RecordTypeA u1.Hostname = .ok recsA)
    (hfetch6 : (if u1.EnableIPv6 && ipv6 != "" then u1.getCurrentRecord w RecordTypeAAAA
      else ([], .ok none)) = (ev3, .ok v6rec))
    (hnu : u1.needsUpdate ipv4 ipv6 (headRecordInfo recsA) v6rec = true)
    (e : CallEvent)
    (he : e ∈ (u1.attemptV4 w ipv4 (headRecordInfo recsA)).1 ∨
          e ∈ (u1.attemptV6 w ipv6 v6rec).1) :
    e ∈ (u.Run w).trace := by
  simp only [DNSUpdater.Run, hdet, getCurrentRecord_eq u1 w RecordTypeA recsA hA, hfetch6, hnu,
    Bool.not_true, Bool.false_eq_true, if_false]
  rcases hU : u1.updateRecords w ipv4 ipv6 (headRecordInfo recsA) v6rec with ⟨ev4, st, er⟩
  have hfst := updateRecords_fst u1 w ipv4 ipv6 (headRecordInfo recsA) v6rec
  rw [hU] at hfst
  have hev4 : ev4 = (u1.attemptV4 w ipv4 (headRecordInfo recsA)).1 ++
      (u1.attemptV6 w ipv6 v6rec).1 := hfst
  rcases er with _ | e2 <;>
    simp only [hev4, List.mem_append] <;>
    tauto

theorem attemptV4_mem_create (u : DNSUpdater) (w : World) (ipv4 : String)
    (h4 : (ipv4 != "") = true) :
    CallEvent.createRecord RecordTypeA u.Hostname ipv4 true ∈ (u.attemptV4 w ipv4 none).1 := by
  rw [attemptV4_fst]
  rw [if_pos (by simp [h4])]
  simp [DNSUpdater.updateRecord]

theorem attemptV4_mem_update (u : DNSUpdater) (w : World) (ipv4 : String) (info : DNSRecordInfo)
    (h4 : (ipv4 != "") = true) (hc : (info.Content != ipv4) = true) :
    CallEvent.updateRecord info.ID RecordTypeA u.Hostname ipv4 info.Proxied ∈
      (u.attemptV4 w ipv4 (some info)).1 := by
  rw [attemptV4_fst]
  rw [if_pos (by simp [h4, hc])]
  simp [DNSUpdater.updateRecord]

theorem attemptV6_mem_create (u : DNSUpdater) (w : World) (ipv6 : String)
    (h6 : u.EnableIPv6 = true) (hip6 : (ipv6 != "") = true) :
    CallEvent.createRecord RecordTypeAAAA u.Hostname ipv6 true ∈ (u.attemptV6 w ipv6 none).1 := by
  rw [attemptV6_fst]
  rw [if_pos (by simp [h6, hip6])]
  simp [DNSUpdater.updateRecord]

theorem attemptV6_mem_update (u : DNSUpdater) (w : World) (ipv6 : String) (info : DNSRecordInfo)
    (h6 : u.EnableIPv6 = true) (hip6 : (ipv6 != "") = true)
    (hc : (info.Content != ipv6) = true) :
    CallEvent.updateRecord info.ID RecordTypeAAAA u.Hostname ipv6 info.Proxied ∈
      (u.attemptV6 w ipv6 (some info)).1 := by
  rw [attemptV6_fst]
  rw [if_pos (by simp [h6, hip6, hc])]
  simp [DNSUpdater.updateRecord]

/-- C4: for each family requiring a change (given resolved addresses and
successful listings): when no current record exists, `Run` issues a
create with the proxy flag `true`; when a record exists with differing
content, `Run` issues an update that reuses that record's identifier and
passes that record's proxy flag unchanged. -/
theorem claim_C4 (u : DNSUpdater) (w : World) (u1 : DNSUpdater) (ev1 : List CallEvent)
    (ipv4 ipv6 : String) (recsA : List DNSRecord)
    (hdet : u.detectIPs w = (u1, ev1, .ok (ipv4, ipv6)))
    (hA : w.listRecords RecordTypeA u1.Hostname = .ok recsA)
    (hB : u1.EnableIPv6 = true → ipv6 ≠ "" →
      ∃ recsB, w.listRecords RecordTypeAAAA u1.Hostname = .ok recsB) :
    (ipv4 ≠ "" → recsA = [] →
      CallEvent.createRecord RecordTypeA u1.Hostname ipv4 true ∈ (u.Run w).trace) ∧
    (∀ r t, ipv4 ≠ "" → recsA = r :: t → r.content ≠ ipv4 →
      CallEvent.updateRecord r.id RecordTypeA u1.Hostname ipv4 r.proxied ∈ (u.Run w).trace) ∧
    (∀ recsB, u1.EnableIPv6 = true → ipv6 ≠ "" →
      w.listRecords RecordTypeAAAA u1.Hostname = .ok recsB →
      (recsB = [] →
        CallEvent.createRecord RecordTypeAAAA u1.Hostname ipv6 true ∈ (u.Run w).trace) ∧
      (∀ r t, recsB = r :: t → r.content ≠ ipv6 →
        CallEvent.updateRecord r.id RecordTypeAAAA u1.Hostname ipv6 r.proxied ∈ (u.Run w).trace)) := by
  have hfetch : ∃ ev3 v6rec,
      (if u1.EnableIPv6 && ipv6 != "" then u1.getCurrentRecord w RecordTypeAAAA
        else ([], .ok none)) = (ev3, Except.ok v6rec) := by
    by_cases hc6 : (u1.EnableIPv6 && ipv6 != "") = true
    · have h6 : u1.EnableIPv6 = true := ((Bool.and_eq_true _ _).mp hc6).1
      have hip6 : ipv6 ≠ "" := by
        have h2 := ((Bool.and_eq_true _ _).mp hc6).2
        simpa using h2
      obtain ⟨recsB, hlist⟩ := hB h6 hip6
      exact ⟨_, _, by rw [if_pos hc6, getCurrentRecord_eq u1 w RecordTypeAAAA recsB hlist]⟩
    · exact ⟨[], none, by rw [if_neg hc6]⟩
  refine ⟨?_, ?_, ?_⟩
  · intro hip4 hnil
    subst hnil
    obtain ⟨ev3, v6rec, hfetch6⟩ := hfetch
    have h4b : (ipv4 != "") = true := bne_iff_ne.mpr hip4
    refine Run_update_mem u w u1 ev1 ipv4 ipv6 [] ev3 v6rec hdet hA hfetch6 ?_ _ ?_
    · simp [DNSUpdater.needsUpdate, headRecordInfo, h4b]
    · exact Or.inl (attemptV4_mem_create u1 w ipv4 h4b)
  · intro r t hip4 hrecs hcont
    subst hrecs
    obtain ⟨ev3, v6rec, hfetch6⟩ := hfetch
    have h4b : (ipv4 != "") = true := bne_iff_ne.mpr hip4
    have hcb : (r.content != ipv4) = true := bne_iff_ne.mpr hcont
    refine Run_update_mem u w u1 ev1 ipv4 ipv6 (r :: t) ev3 v6rec hdet hA hfetch6 ?_ _ ?_
    · simp [DNSUpdater.needsUpdate, headRecordInfo, h4b, hcb]
    · exact Or.inl (attemptV4_mem_update u1 w ipv4 ⟨r.id, r.content, r.proxied⟩ h4b hcb)
  · intro recsB h6 hip6 hlist
    have hip6b : (ipv6 != "") = true := bne_iff_ne.mpr hip6
    have hc6 : (u1.EnableIPv6 && ipv6 != "") = true := by simp [h6, hip6b]
    have hfetch6 : (if u1.EnableIPv6 && ipv6 != "" then u1.getCurrentRecord w RecordTypeAAAA
        else ([], .ok none)) =
        ([CallEvent.listRecords RecordTypeAAAA u1.Hostname], .ok (headRecordInfo recsB)) := by
      rw [if_pos hc6, getCurrentRecord_eq u1 w RecordTypeAAAA recsB hlist]
    constructor
    · intro hnil
      subst hnil
      refine Run_update_mem u w u1 ev1 ipv4 ipv6 recsA _ _ hdet hA hfetch6 ?_ _ ?_
      · simp [DNSUpdater.needsUpdate, headRecordInfo, h6, hip6b]
      · exact Or.inr (attemptV6_mem_create u1 w ipv6 h6 hip6b)
    · intro r t hrecs hcont
      subst hrecs
      have hcb : (r.content != ipv6) = true := bne_iff_ne.mpr hcont
      refine Run_update_mem u w u1 ev1 ipv4 ipv6 recsA _ _ hdet hA hfetch6 ?_ _ ?_
      · simp [DNSUpdater.needsUpdate, headRecordInfo, h6, hip6b, hcb]
      · exact Or.inr (attemptV6_mem_update u1 w ipv6 ⟨r.id, r.content, r.proxied⟩ h6 hip6b hcb)

/-- C4 witness: the theorem instantiated at a run that updates a stale A
record (preserving `proxied = false`) and creates a missing AAAA record
with `proxied = true`. -/
theorem claim_C4_witness :
    CallEvent.updateRecord "idA" RecordTypeA uBoth.Hostname "1.2.3.4" false ∈
      (DNSUpdater.Run uBoth wC4).trace ∧
    CallEvent.createRecord RecordTypeAAAA uBoth.Hostname "2001:db8::1" true ∈
      (DNSUpdater.Run uBoth wC4).trace := by
  have h := claim_C4 uBoth wC4 uBoth [CallEvent.httpGet "https://api6.ipify.org"]
    "1.2.3.4" "2001:db8::1" [⟨"idA", "A", "host", "9.9.9.9", false⟩]
    (by rfl) (by rfl) (fun _ _ => ⟨[], by rfl⟩)
  refine ⟨h.2.1 ⟨"idA", "A", "host", "9.9.9.9", false⟩ [] (by decide) rfl (by decide), ?_⟩
  exact (h.2.2 [] (by decide) (by decide) (by rfl)).1 rfl

theorem getCurrentRecord_fst (u : DNSUpdater) (w : World) (rt : String) :
    (u.getCurrentRecord w rt).1 = [CallEvent.listRecords rt u.Hostname] := by
  rfl

theorem Run_trace_mem (u : DNSUpdater) (w : World) :
    ∀ e ∈ (u.Run w).trace, e ∈ (u.detectIPs w).2.1 ∨ e.isMutation = true ∨
      e = CallEvent.listRecords RecordTypeA (u.detectIPs w).1.Hostname ∨
      ((u.detectIPs w).1.EnableIPv6 = true ∧
        e = CallEvent.listRecords RecordTypeAAAA (u.detectIPs w).1.Hostname) := by
  intro e he
  unfold DNSUpdater.Run at he
  rcases hd : u.detectIPs w with ⟨u1, ev1, r⟩
  simp only [hd] at he
  simp only [hd]
  rcases r with err | ⟨ipv4, ipv6⟩
  · exact Or.inl he
  · rcases hA : u1.getCurrentRecord w RecordTypeA with ⟨ev2, r4⟩
    have hA2 : ev2 = [CallEvent.listRecords RecordTypeA u1.Hostname] := by
      have := getCurrentRecord_fst u1 w RecordTypeA
      rw [hA] at this
      exact this
    simp only [hA] at he
    subst hA2
    rcases r4 with err | v4rec
    · simp only [List.mem_append, List.mem_singleton] at he
      rcases he with he | rfl
      · exact Or.inl he
      · exact Or.inr (Or.inr (Or.inl rfl))
    · by_cases hc : (u1.EnableIPv6 && ipv6 != "") = true
      · have h6 : u1.EnableIPv6 = true := ((Bool.and_eq_true _ _).mp hc).1
        rcases hB : u1.getCurrentRecord w RecordTypeAAAA with ⟨ev3, r6⟩
        have hB2 : ev3 = [CallEvent.listRecords RecordTypeAAAA u1.Hostname] := by
          have := getCurrentRecord_fst u1 w RecordTypeAAAA
          rw [hB] at this
          exact this
        simp only [hc, if_true, hB] at he
        subst hB2
        rcases r6 with err | v6rec
        · simp only [List.mem_append, List.mem_singleton] at he
          rcases he with (he | rfl) | rfl
          · exact Or.inl he
          · exact Or.inr (Or.inr (Or.inl rfl))
          · exact Or.inr (Or.inr (Or.inr ⟨h6, rfl⟩))
        · by_cases hn : u1.needsUpdate ipv4 ipv6 v4rec v6rec = true
          · rcases hU : u1.updateRecords w ipv4 ipv6 v4rec v6rec with ⟨ev4, st, er⟩
            have hU2 := updateRecords_events u1 w ipv4 ipv6 v4rec v6rec
            rw [hU] at hU2
            simp only [hn, Bool.not_true, Bool.false_eq_true, if_false, hU] at he
            rcases er with _ | e2 <;>
              simp only [List.mem_append, List.mem_singleton] at he <;>
              rcases he with ((he | rfl) | rfl) | he
            · exact Or.inl he
            · exact Or.inr (Or.inr (Or.inl rfl))
            · exact Or.inr (Or.inr (Or.inr ⟨h6, rfl⟩))
            · exact Or.inr (Or.inl (hU2 e he))
            · exact Or.inl he
            · exact Or.inr (Or.inr (Or.inl rfl))
            · exact Or.inr (Or.inr (Or.inr ⟨h6, rfl⟩))
            · exact Or.inr (Or.inl (hU2 e he))
          · have hn2 : u1.needsUpdate ipv4 ipv6 v4rec v6rec = false := by
              simpa using hn
            simp only [hn2, Bool.not_false, if_true, List.mem_append, List.mem_singleton] at he
            rcases he with (he | rfl) | rfl
            · exact Or.inl he
            · exact Or.inr (Or.inr (Or.inl rfl))
            · exact Or.inr (Or.inr (Or.inr ⟨h6, rfl⟩))
      · have hc2 : (u1.EnableIPv6 && ipv6 != "") = false := by simpa using hc
        simp only [hc2, Bool.false_eq_true, if_false] at he
        by_cases hn : u1.needsUpdate ipv4 ipv6 v4rec none = true
        · rcases hU : u1.updateRecords w ipv4 ipv6 v4rec none with ⟨ev4, st, er⟩
          have hU2 := updateRecords_events u1 w ipv4 ipv6 v4rec none
          rw [hU] at hU2
          simp only [hn, Bool.not_true, Bool.false_eq_true, if_false, hU] at he
          rcases er with _ | e2 <;>
            simp only [List.append_nil, List.mem_append, List.mem_singleton] at he <;>
            rcases he with (he | rfl) | he
          · exact Or.inl he
          · exact Or.inr (Or.inr (Or.inl rfl))
          · exact Or.inr (Or.inl (hU2 e he))
          · exact Or.inl he
          · exact Or.inr (Or.inr (Or.inl rfl))
          · exact Or.inr (Or.inl (hU2 e he))
        · have hn2 : u1.needsUpdate ipv4 ipv6 v4rec none = false := by
            simpa using hn
          simp only [hn2, Bool.not_false, if_true, List.append_nil, List.mem_append,
            List.mem_singleton] at he
          rcases he with he | rfl
          · exact Or.inl he
          · exact Or.inr (Or.inr (Or.inl rfl))

/-- C5: for a non-empty explicit IP input: an IPv4-valid input is used as
the IPv4 address; an input valid only as IPv6 is used as the IPv6
address, IPv6 handling is forced off for the run, and no detection
lookup is made for either family anywhere in the run; an input valid as
neither fails the run with the invalid-address error before any
collaborator call (the trace is empty). -/
theorem claim_C5 (u : DNSUpdater) (w : World) (hne : u.IPAddr ≠ "") :
    (IsIPv4 u.IPAddr = true →
      ∃ u1 ev1 ipv6, u.detectIPs w = (u1, ev1, .ok (u.IPAddr, ipv6))) ∧
    (IsIPv4 u.IPAddr = false → IsIPv6 u.IPAddr = true →
      u.detectIPs w = ({ u with EnableIPv6 := false }, [], .ok ("", u.IPAddr)) ∧
      ∀ url, CallEvent.httpGet url ∉ (u.Run w).trace) ∧
    (IsIPv4 u.IPAddr = false → IsIPv6 u.IPAddr = false →
      (u.Run w).status = StatusAuthError ∧
      (u.Run w).err = some "IP detection failed: invalid IP address provided" ∧
      (u.Run w).trace = []) := by
  refine ⟨?_, ?_, ?_⟩
  · intro h4
    by_cases h6 : u.EnableIPv6 = true
    · rcases hd6 : IPDetector.DetectIPv6 w with ⟨evs2, r2⟩
      rcases r2 with e2 | ip6
      · exact ⟨{ u with EnableIPv6 := false }, evs2, "",
          by simp [DNSUpdater.detectIPs, hne, h4, h6, hd6]⟩
      · exact ⟨u, evs2, ip6,
          by simp [DNSUpdater.detectIPs, hne, h4, h6, hd6]⟩
    · have h6f : u.EnableIPv6 = false := by simpa using h6
      exact ⟨u, [], "", by simp [DNSUpdater.detectIPs, hne, h4, h6f]⟩
  · intro h4 hv6
    have hdet : u.detectIPs w = ({ u with EnableIPv6 := false }, [], .ok ("", u.IPAddr)) := by
      simp [DNSUpdater.detectIPs, hne, h4, hv6]
    refine ⟨hdet, ?_⟩
    intro url hmem
    have h := Run_trace_mem u w (CallEvent.httpGet url) hmem
    rw [hdet] at h
    rcases h with h | h | h | ⟨h, _⟩
    · exact absurd h (List.not_mem_nil _)
    · simp [CallEvent.isMutation] at h
    · simp at h
    · simp at h
  · intro h4 hv6
    have hdet : u.detectIPs w = (u, [], .error "invalid IP address provided") := by
      simp [DNSUpdater.detectIPs, hne, h4, hv6]
    unfold DNSUpdater.Run
    simp only [hdet]
    exact ⟨trivial, rfl, trivial⟩

/-- C5 witness: the theorem instantiated at the explicit-IPv6 and
invalid-input configurations. -/
theorem claim_C5_witness :
    (IsIPv4 uV6Explicit.IPAddr = false → IsIPv6 uV6Explicit.IPAddr = true →
      uV6Explicit.detectIPs emptyWorld =
        ({ uV6Explicit with EnableIPv6 := false }, [], .ok ("", uV6Explicit.IPAddr)) ∧
      ∀ url, CallEvent.httpGet url ∉ (DNSUpdater.Run uV6Explicit emptyWorld).trace) ∧
    (IsIPv4 uBadIP.IPAddr = false → IsIPv6 uBadIP.IPAddr = false →
      (DNSUpdater.Run uBadIP emptyWorld).status = StatusAuthError ∧
      (DNSUpdater.Run uBadIP emptyWorld).err =
        some "IP detection failed: invalid IP address provided" ∧
      (DNSUpdater.Run uBadIP emptyWorld).trace = []) :=
  ⟨(claim_C5 uV6Explicit emptyWorld (by decide)).2.1,
   (claim_C5 uBadIP emptyWorld (by decide)).2.2⟩

theorem detectFromServices_all_fail (w : World) (valid : String → Bool) (l : List String)
    (h : ∀ s ∈ l, (w.httpGet s).all (fun b => !valid (goTrimSpace b)) = true) :
    detectFromServices w valid l = (l.map CallEvent.httpGet, none) := by
  induction l with
  | nil => simp [detectFromServices]
  | cons svc rest ih =>
    have hrest := ih (fun s hs => h s (by simp [hs]))
    have hsvc := h svc (by simp)
    cases hg : w.httpGet svc with
    | none => simp [detectFromServices, hg, hrest]
    | some b =>
      rw [hg] at hsvc
      have hb : valid (goTrimSpace b) = false := by simpa [Option.all] using hsvc
      simp [detectFromServices, hg, hb, hrest]

/-- C6: (a) with no explicit IP, if every IPv4 endpoint fails or returns
a body whose trimmed text is not IPv4-valid, `Run` fails (auth-error
status with an error) without any provider call; (b) with IPv4 resolved
and IPv6 enabled, an IPv6 detection failure is not fatal: `detectIPs`
succeeds with `EnableIPv6` silently cleared and the run never queries
the AAAA family. -/
theorem claim_C6 :
    (∀ (u : DNSUpdater) (w : World), u.IPAddr = "" →
      (∀ s ∈ ipv4Services, (w.httpGet s).all (fun b => !IsIPv4 (goTrimSpace b)) = true) →
      (u.Run w).status = StatusAuthError ∧ (u.Run w).err.isSome = true ∧
        ∀ e ∈ (u.Run w).trace, e.isProviderCall = false) ∧
    (∀ (u : DNSUpdater) (w : World) (e6 : String), IsIPv4 u.IPAddr = true →
      u.EnableIPv6 = true → (IPDetector.DetectIPv6 w).2 = .error e6 →
      (u.detectIPs w).1.EnableIPv6 = false ∧ (u.detectIPs w).2.2 = .ok (u.IPAddr, "") ∧
        ∀ host, CallEvent.listRecords RecordTypeAAAA host ∉ (u.Run w).trace) := by
  constructor
  · intro u w h1 hfail
    have hdfs := detectFromServices_all_fail w IsIPv4 ipv4Services hfail
    have hd4 : IPDetector.DetectIPv4 w =
        (ipv4Services.map CallEvent.httpGet, .error "failed to detect public IPv4 address") := by
      unfold IPDetector.DetectIPv4
      rw [hdfs]
    have hdet : u.detectIPs w = (u, ipv4Services.map CallEvent.httpGet,
        .error ("detect IPv4: " ++ "failed to detect public IPv4 address")) := by
      simp [DNSUpdater.detectIPs, h1, hd4]
    unfold DNSUpdater.Run
    simp only [hdet]
    refine ⟨trivial, rfl, ?_⟩
    intro e he
    simp only [List.mem_map] at he
    obtain ⟨s, _, rfl⟩ := he
    rfl
  · intro u w e6 h4 h6 hd6
    have hne : ¬(u.IPAddr = "") := by
      intro h
      rw [h] at h4
      exact absurd h4 (by decide)
    rcases hdd : IPDetector.DetectIPv6 w with ⟨evs2, r2⟩
    rw [hdd] at hd6
    simp only at hd6
    subst hd6
    have hdet : u.detectIPs w =
        ({ u with EnableIPv6 := false }, evs2, .ok (u.IPAddr, "")) := by
      simp [DNSUpdater.detectIPs, hne, h4, h6, hdd]
    refine ⟨by rw [hdet], by rw [hdet], ?_⟩
    intro host hmem
    have h := Run_trace_mem u w (CallEvent.listRecords RecordTypeAAAA host) hmem
    rw [hdet] at h
    have hevs2 := DetectIPv6_events w
    rw [hdd] at hevs2
    rcases h with h | h | h | ⟨h, _⟩
    · have := hevs2 _ h
      simp [CallEvent.isHttpGet] at this
    · simp [CallEvent.isMutation] at h
    · simp only [CallEvent.listRecords.injEq] at h
      exact absurd h.1 (by decide)
    · simp at h

/-- C6 witness: both parts of the theorem instantiated at the
all-endpoints-fail world. -/
theorem claim_C6_witness :
    ((DNSUpdater.Run uDetect emptyWorld).status = StatusAuthError ∧
      (DNSUpdater.Run uDetect emptyWorld).err.isSome = true ∧
      ∀ e ∈ (DNSUpdater.Run uDetect emptyWorld).trace, e.isProviderCall = false) ∧
    ((uBoth.detectIPs emptyWorld).1.EnableIPv6 = false ∧
      (uBoth.detectIPs emptyWorld).2.2 = .ok (uBoth.IPAddr, "") ∧
      ∀ host, CallEvent.listRecords RecordTypeAAAA host ∉ (DNSUpdater.Run uBoth emptyWorld).trace) :=
  ⟨claim_C6.1 uDetect emptyWorld (by decide) (by decide),
   claim_C6.2 uBoth emptyWorld
     "no IPv6 address found from external services or local interfaces"
     (by decide) (by decide) (by rfl)⟩

theorem detectFromServices_first_success (w : World) (valid : String → Bool)
    (pre : List String) (svc : String) (post : List String) (body : String)
    (hpre : ∀ s ∈ pre, (w.httpGet s).all (fun b => !valid (goTrimSpace b)) = true)
    (hsvc : w.httpGet svc = some body)
    (hvalid : valid (goTrimSpace body) = true) :
    detectFromServices w valid (pre ++ svc :: post) =
      ((pre ++ [svc]).map CallEvent.httpGet, some (goTrimSpace body)) := by
  induction pre with
  | nil => simp [detectFromServices, hsvc, hvalid]
  | cons p ps ih =>
    have hrest := ih (fun s hs => hpre s (by simp [hs]))
    have hp := hpre p (by simp)
    cases hg : w.httpGet p with
    | none => simp [detectFromServices, hg, hrest]
    | some b =>
      rw [hg] at hp
      have hb : valid (goTrimSpace b) = false := by simpa [Option.all] using hp
      simp [detectFromServices, hg, hb, hrest]

/-- C8: each family's detector consults an ordered list of at least 3
endpoints; each response body is trimmed and validated for the expected
family; the first endpoint whose trimmed body validates makes detection
return that value immediately, having consulted exactly the failing or
malformed endpoints before it and none after. -/
theorem claim_C8 :
    3 ≤ ipv4Services.length ∧ 3 ≤ ipv6Services.length ∧
    (∀ (w : World) (pre : List String) (svc : String) (post : List String) (body : String),
      ipv4Services = pre ++ svc :: post →
      (∀ s ∈ pre, (w.httpGet s).all (fun b => !IsIPv4 (goTrimSpace b)) = true) →
      w.httpGet svc = some body → IsIPv4 (goTrimSpace body) = true →
      IPDetector.DetectIPv4 w =
        ((pre ++ [svc]).map CallEvent.httpGet, .ok (goTrimSpace body))) ∧
    (∀ (w : World) (pre : List String) (svc : String) (post : List String) (body : String),
      ipv6Services = pre ++ svc :: post →
      (∀ s ∈ pre, (w.httpGet s).all (fun b => !IsIPv6 (goTrimSpace b)) = true) →
      w.httpGet svc = some body → IsIPv6 (goTrimSpace body) = true →
      IPDetector.DetectIPv6 w =
        ((pre ++ [svc]).map CallEvent.httpGet, .ok (goTrimSpace body))) := by
  refine ⟨by decide, by decide, ?_, ?_⟩
  · intro w pre svc post body heq hpre hsvc hvalid
    unfold IPDetector.DetectIPv4
    rw [heq, detectFromServices_first_success w IsIPv4 pre svc post body hpre hsvc hvalid]
  · intro w pre svc post body heq hpre hsvc hvalid
    unfold IPDetector.DetectIPv6
    rw [heq, detectFromServices_first_success w IsIPv6 pre svc post body hpre hsvc hvalid]

/-- C8 witness: endpoint fallback at a concrete world where the first
endpoint fails, the second returns a malformed body and the third a
valid address. -/
theorem claim_C8_witness :
    IPDetector.DetectIPv4 wC8 =
      ([CallEvent.httpGet "https://api.ipify.org", CallEvent.httpGet "https://v4.ident.me/",
        CallEvent.httpGet "https://ipv4.icanhazip.com/"], .ok (goTrimSpace " 203.0.113.7\n")) :=
  claim_C8.2.2.1 wC8 ["https://api.ipify.org", "https://v4.ident.me/"]
    "https://ipv4.icanhazip.com/" [] " 203.0.113.7\n"
    (by rfl) (by decide) (by rfl) (by decide)

/-! ## Claim C10 -/

/-- C10 counterexample: on the invalid explicit input `"notanip"` (with
identical collaborator responses — none are consulted) the legacy `Run`
returns the outcome string `""` while the refactored `Run` returns
`"authentication error"`, so the two updaters do not return the same
outcome string for every identical configuration and collaborator
behavior. -/
theorem claim_C10_counterexample :
    (legacyRun uBadIP emptyWorld).status = "" ∧
      (DNSUpdater.Run uBadIP emptyWorld).status = StatusAuthError ∧
      ("" == StatusAuthError) = false ∧
      (legacyRun uBadIP emptyWorld).err.isSome = true ∧
      (DNSUpdater.Run uBadIP emptyWorld).err.isSome = true := by
  refine ⟨by decide, by decide, by decide, by decide, by decide⟩

/-- The legacy `detectIPv6` and the refactored `DetectIPv6` have the same
endpoint loop and interface fallback. -/
theorem legacyDetectIPv6_eq : legacyDetectIPv6 = IPDetector.DetectIPv6 := rfl

/-- C10 (amended): the legacy and the refactored updater return the same
outcome string and are both error-free for every configuration with an
explicitly supplied valid IPv4 address whose provider listings succeed
with nonempty record identifiers and whose mutations all succeed; they
diverge on failure paths (legacy returns `""` or
`"authentication_failed"` where the refactored returns
`"authentication error"`; legacy stops at the first mutation error
without attempting the other family) and on IPv4 auto-detection (legacy
consults a single endpoint without trimming or validation; the
refactored consults three with trim and validation). -/
theorem claim_C10 (u : DNSUpdater) (w : World) (recsA recsB : List DNSRecord)
    (h4 : IsIPv4 u.IPAddr = true)
    (hA : w.listRecords RecordTypeA u.Hostname = .ok recsA)
    (hB : w.listRecords RecordTypeAAAA u.Hostname = .ok recsB)
    (hAid : ∀ r ∈ recsA.take 1, r.id ≠ "")
    (hBid : ∀ r ∈ recsB.take 1, r.id ≠ "")
    (hcreate : ∀ rt h c p, w.createRecord rt h c p = .ok true)
    (hupdate : ∀ i rt h c p, w.updateRecord i rt h c p = .ok true) :
    (legacyRun u w).status = (u.Run w).status ∧
      (legacyRun u w).err = none ∧ (u.Run w).err = none := by
  have hne : ¬(u.IPAddr = "") := by
    intro h
    rw [h] at h4
    exact absurd h4 (by decide)
  have hne' : (u.IPAddr == "") = false := beq_eq_false_iff_ne.mpr hne
  have hne2 : ¬("" = u.IPAddr) := fun h => hne h.symm
  rcases hdd : IPDetector.DetectIPv6 w with ⟨evs2, r2⟩
  have hddL : legacyDetectIPv6 w = (evs2, r2) := by rw [legacyDetectIPv6_eq, hdd]
  by_cases h6 : u.EnableIPv6 = true
  case neg =>
    have h6f : u.EnableIPv6 = false := by simpa using h6
    rcases recsA with _ | ⟨rA, tA⟩
    · simp [legacyRun, DNSUpdater.Run, DNSUpdater.detectIPs, DNSUpdater.getCurrentRecord, DNSUpdater.needsUpdate, DNSUpdater.updateRecords, DNSUpdater.attemptV4, DNSUpdater.attemptV6, DNSUpdater.updateRecord, StatusNoChange, StatusGood, hne, hne', hne2, h4, hdd, hddL, hA, hB, hcreate, hupdate, h6f]
    · have hidA : (rA.id == "") = false := beq_eq_false_iff_ne.mpr (hAid rA (by simp))
      by_cases hcA : rA.content = u.IPAddr
      · simp [legacyRun, DNSUpdater.Run, DNSUpdater.detectIPs, DNSUpdater.getCurrentRecord, DNSUpdater.needsUpdate, DNSUpdater.updateRecords, DNSUpdater.attemptV4, DNSUpdater.attemptV6, DNSUpdater.updateRecord, StatusNoChange, StatusGood, hne, hne', hne2, h4, hdd, hddL, hA, hB, hcreate, hupdate, h6f, hcA, hidA]
      · simp [legacyRun, DNSUpdater.Run, DNSUpdater.detectIPs, DNSUpdater.getCurrentRecord, DNSUpdater.needsUpdate, DNSUpdater.updateRecords, DNSUpdater.attemptV4, DNSUpdater.attemptV6, DNSUpdater.updateRecord, StatusNoChange, StatusGood, hne, hne', hne2, h4, hdd, hddL, hA, hB, hcreate, hupdate, h6f, hcA, hidA]
  case pos =>
    rcases r2 with e6 | ip6
    · -- IPv6 detection failed in both runs
      rcases recsA with _ | ⟨rA, tA⟩
      · simp [legacyRun, DNSUpdater.Run, DNSUpdater.detectIPs, DNSUpdater.getCurrentRecord, DNSUpdater.needsUpdate, DNSUpdater.updateRecords, DNSUpdater.attemptV4, DNSUpdater.attemptV6, DNSUpdater.updateRecord, StatusNoChange, StatusGood, hne, hne', hne2, h4, hdd, hddL, hA, hB, hcreate, hupdate, h6]
      · have hidA : (rA.id == "") = false := beq_eq_false_iff_ne.mpr (hAid rA (by simp))
        by_cases hcA : rA.content = u.IPAddr
        · simp [legacyRun, DNSUpdater.Run, DNSUpdater.detectIPs, DNSUpdater.getCurrentRecord, DNSUpdater.needsUpdate, DNSUpdater.updateRecords, DNSUpdater.attemptV4, DNSUpdater.attemptV6, DNSUpdater.updateRecord, StatusNoChange, StatusGood, hne, hne', hne2, h4, hdd, hddL, hA, hB, hcreate, hupdate, h6, hcA, hidA]
        · simp [legacyRun, DNSUpdater.Run, DNSUpdater.detectIPs, DNSUpdater.getCurrentRecord, DNSUpdater.needsUpdate, DNSUpdater.updateRecords, DNSUpdater.attemptV4, DNSUpdater.attemptV6, DNSUpdater.updateRecord, StatusNoChange, StatusGood, hne, hne', hne2, h4, hdd, hddL, hA, hB, hcreate, hupdate, h6, hcA, hidA]
    · by_cases hip6e : ip6 = ""
      · subst hip6e
        rcases recsA with _ | ⟨rA, tA⟩
        · simp [legacyRun, DNSUpdater.Run, DNSUpdater.detectIPs, DNSUpdater.getCurrentRecord, DNSUpdater.needsUpdate, DNSUpdater.updateRecords, DNSUpdater.attemptV4, DNSUpdater.attemptV6, DNSUpdater.updateRecord, StatusNoChange, StatusGood, hne, hne', hne2, h4, hdd, hddL, hA, hB, hcreate, hupdate, h6]
        · have hidA : (rA.id == "") = false := beq_eq_false_iff_ne.mpr (hAid rA (by simp))
          by_cases hcA : rA.content = u.IPAddr
          · simp [legacyRun, DNSUpdater.Run, DNSUpdater.detectIPs, DNSUpdater.getCurrentRecord, DNSUpdater.needsUpdate, DNSUpdater.updateRecords, DNSUpdater.attemptV4, DNSUpdater.attemptV6, DNSUpdater.updateRecord, StatusNoChange, StatusGood, hne, hne', hne2, h4, hdd, hddL, hA, hB, hcreate, hupdate, h6, hcA, hidA]
          · simp [legacyRun, DNSUpdater.Run, DNSUpdater.detectIPs, DNSUpdater.getCurrentRecord, DNSUpdater.needsUpdate, DNSUpdater.updateRecords, DNSUpdater.attemptV4, DNSUpdater.attemptV6, DNSUpdater.updateRecord, StatusNoChange, StatusGood, hne, hne', hne2, h4, hdd, hddL, hA, hB, hcreate, hupdate, h6, hcA, hidA]
      · have hip6b : (ip6 == "") = false := beq_eq_false_iff_ne.mpr hip6e
        have hip6s : ¬("" = ip6) := fun h => hip6e h.symm
        rcases recsB with _ | ⟨rB, tB⟩
        · -- no AAAA record
          rcases recsA with _ | ⟨rA, tA⟩
          · simp [legacyRun, DNSUpdater.Run, DNSUpdater.detectIPs, DNSUpdater.getCurrentRecord, DNSUpdater.needsUpdate, DNSUpdater.updateRecords, DNSUpdater.attemptV4, DNSUpdater.attemptV6, DNSUpdater.updateRecord, StatusNoChange, StatusGood, hne, hne', hne2, h4, hdd, hddL, hA, hB, hcreate, hupdate, h6, hip6e, hip6b, hip6s]
          · have hidA : (rA.id == "") = false := beq_eq_false_iff_ne.mpr (hAid rA (by simp))
            by_cases hcA : rA.content = u.IPAddr
            · simp [legacyRun, DNSUpdater.Run, DNSUpdater.detectIPs, DNSUpdater.getCurrentRecord, DNSUpdater.needsUpdate, DNSUpdater.updateRecords, DNSUpdater.attemptV4, DNSUpdater.attemptV6, DNSUpdater.updateRecord, StatusNoChange, StatusGood, hne, hne', hne2, h4, hdd, hddL, hA, hB, hcreate, hupdate, h6, hip6e, hip6b, hip6s, hcA, hidA]
            · simp [legacyRun, DNSUpdater.Run, DNSUpdater.detectIPs, DNSUpdater.getCurrentRecord, DNSUpdater.needsUpdate, DNSUpdater.updateRecords, DNSUpdater.attemptV4, DNSUpdater.attemptV6, DNSUpdater.updateRecord, StatusNoChange, StatusGood, hne, hne', hne2, h4, hdd, hddL, hA, hB, hcreate, hupdate, h6, hip6e, hip6b, hip6s, hcA, hidA]
        · have hidB : (rB.id == "") = false := beq_eq_false_iff_ne.mpr (hBid rB (by simp))
          by_cases hcB : rB.content = ip6
          · -- AAAA record matches
            rcases recsA with _ | ⟨rA, tA⟩
            · simp [legacyRun, DNSUpdater.Run, DNSUpdater.detectIPs, DNSUpdater.getCurrentRecord, DNSUpdater.needsUpdate, DNSUpdater.updateRecords, DNSUpdater.attemptV4, DNSUpdater.attemptV6, DNSUpdater.updateRecord, StatusNoChange, StatusGood, hne, hne', hne2, h4, hdd, hddL, hA, hB, hcreate, hupdate, h6, hip6e, hip6b, hip6s, hcB, hidB]
            · have hidA : (rA.id == "") = false := beq_eq_false_iff_ne.mpr (hAid rA (by simp))
              by_cases hcA : rA.content = u.IPAddr
              · simp [legacyRun, DNSUpdater.Run, DNSUpdater.detectIPs, DNSUpdater.getCurrentRecord, DNSUpdater.needsUpdate, DNSUpdater.updateRecords, DNSUpdater.attemptV4, DNSUpdater.attemptV6, DNSUpdater.updateRecord, StatusNoChange, StatusGood, hne, hne', hne2, h4, hdd, hddL, hA, hB, hcreate, hupdate, h6, hip6e, hip6b, hip6s, hcB, hidB, hcA, hidA]
              · simp [legacyRun, DNSUpdater.Run, DNSUpdater.detectIPs, DNSUpdater.getCurrentRecord, DNSUpdater.needsUpdate, DNSUpdater.updateRecords, DNSUpdater.attemptV4, DNSUpdater.attemptV6, DNSUpdater.updateRecord, StatusNoChange, StatusGood, hne, hne', hne2, h4, hdd, hddL, hA, hB, hcreate, hupdate, h6, hip6e, hip6b, hip6s, hcB, hidB, hcA, hidA]
          · -- AAAA record differs
            rcases recsA with _ | ⟨rA, tA⟩
            · simp [legacyRun, DNSUpdater.Run, DNSUpdater.detectIPs, DNSUpdater.getCurrentRecord, DNSUpdater.needsUpdate, DNSUpdater.updateRecords, DNSUpdater.attemptV4, DNSUpdater.attemptV6, DNSUpdater.updateRecord, StatusNoChange, StatusGood, hne, hne', hne2, h4, hdd, hddL, hA, hB, hcreate, hupdate, h6, hip6e, hip6b, hip6s, hcB, hidB]
            · have hidA : (rA.id == "") = false := beq_eq_false_iff_ne.mpr (hAid rA (by simp))
              by_cases hcA : rA.content = u.IPAddr
              · simp [legacyRun, DNSUpdater.Run, DNSUpdater.detectIPs, DNSUpdater.getCurrentRecord, DNSUpdater.needsUpdate, DNSUpdater.updateRecords, DNSUpdater.attemptV4, DNSUpdater.attemptV6, DNSUpdater.updateRecord, StatusNoChange, StatusGood, hne, hne', hne2, h4, hdd, hddL, hA, hB, hcreate, hupdate, h6, hip6e, hip6b, hip6s, hcB, hidB, hcA, hidA]
              · simp [legacyRun, DNSUpdater.Run, DNSUpdater.detectIPs, DNSUpdater.getCurrentRecord, DNSUpdater.needsUpdate, DNSUpdater.updateRecords, DNSUpdater.attemptV4, DNSUpdater.attemptV6, DNSUpdater.updateRecord, StatusNoChange, StatusGood, hne, hne', hne2, h4, hdd, hddL, hA, hB, hcreate, hupdate, h6, hip6e, hip6b, hip6s, hcB, hidB, hcA, hidA]

/-- C10 witness: both updaters on the same world (IPv6 detection fails,
stale A record, no AAAA record, mutations succeed) return the same
outcome with no error. -/
theorem claim_C10_witness :
    (legacyRun uBoth wC10).status = (DNSUpdater.Run uBoth wC10).status ∧
      (legacyRun uBoth wC10).err = none ∧ (DNSUpdater.Run uBoth wC10).err = none :=
  claim_C10 uBoth wC10 [⟨"idA", "A", "host", "9.9.9.9", false⟩] []
    (by decide) (by rfl) (by rfl) (by decide) (by decide)
    (fun _ _ _ _ => rfl) (fun _ _ _ _ _ => rfl)
